import Mathlib

/-!
# The libuvc SDL viewer example (`src/example.c`)

`main` is a chain of calls into libuvc and SDL2.  The embedding fixes, in an
environment `Env`, what every library call answers, and `main` maps an
environment to the sequence of library calls the program makes (its trace)
together with the way the run ends: a returned exit value, an undefined
operation of C (a NULL dereference, a division by zero), or a frame loop that
is still turning when the delivered events are used up.
-/

namespace UvcExample

/-! ## Constants of the two libraries -/

/-- The enumerator `UVC_SUCCESS = 0` of `enum uvc_error` in `libuvc/libuvc.h`. -/
def UVC_SUCCESS : Int := 0

/-- The enumerator `UVC_ERROR_PIPE = -9` of `enum uvc_error` in
`libuvc/libuvc.h`. -/
def UVC_ERROR_PIPE : Int := -9

/-- The SDL2 event type of a quit request, `SDL_QUIT = 0x100`. -/
def SDL_QUIT : Nat := 0x100

/-- The SDL2 event type of a window event, `SDL_WINDOWEVENT = 0x200`. -/
def SDL_WINDOWEVENT : Nat := 0x200

/-- The SDL2 event type of a key press, `SDL_KEYDOWN = 0x300`. -/
def SDL_KEYDOWN : Nat := 0x300

/-- The SDL2 key code of the escape key, the character code 27. -/
def SDLK_ESCAPE : Int := 27

/-- The SDL2 window event id of a resize, `SDL_WINDOWEVENT_RESIZED = 5`. -/
def SDL_WINDOWEVENT_RESIZED : Nat := 5

/-- The pixel formats `main` names, of SDL2 `SDL_PixelFormatEnum`. -/
inductive SDL_PixelFormat where
  | SDL_PIXELFORMAT_IYUV
  | SDL_PIXELFORMAT_NV12
  deriving DecidableEq, Repr

/-- The enumerators of `enum uvc_vs_desc_subtype` that `main` names; every
other subtype value is `other n`. -/
inductive uvc_vs_desc_subtype where
  | UVC_VS_FORMAT_MJPEG
  | UVC_VS_FORMAT_FRAME_BASED
  | other (n : Nat)
  deriving DecidableEq, Repr

/-- The enumerators of `enum uvc_frame_format` that `main` names (they are
labels of one `switch`, hence pairwise distinct); every other tag is
`other n`. -/
inductive uvc_frame_format where
  | UVC_FRAME_FORMAT_YUYV
  | UVC_FRAME_FORMAT_MJPEG
  | UVC_FRAME_FORMAT_H264
  | UVC_FRAME_FORMAT_NV12
  | other (n : Nat)
  deriving DecidableEq, Repr

/-- In `libuvc/libuvc.h` the name `UVC_COLOR_FORMAT_YUYV` is a preprocessor
alias of `UVC_FRAME_FORMAT_YUYV`. -/
@[match_pattern] abbrev UVC_COLOR_FORMAT_YUYV : uvc_frame_format := .UVC_FRAME_FORMAT_YUYV

/-- In `libuvc/libuvc.h` the name `UVC_COLOR_FORMAT_MJPEG` is a preprocessor
alias of `UVC_FRAME_FORMAT_MJPEG`. -/
@[match_pattern] abbrev UVC_COLOR_FORMAT_MJPEG : uvc_frame_format := .UVC_FRAME_FORMAT_MJPEG

/-- In `libuvc/libuvc.h` the name `UVC_COLOR_FORMAT_NV12` is a preprocessor
alias of `UVC_FRAME_FORMAT_NV12`. -/
@[match_pattern] abbrev UVC_COLOR_FORMAT_NV12 : uvc_frame_format := .UVC_FRAME_FORMAT_NV12

/-! ## Data handed over by the libraries -/

/-- The fields of `uvc_frame_desc_t` that `main` reads: `wWidth` and `wHeight`
are `uint16_t`, `dwDefaultFrameInterval` is `uint32_t`. -/
structure uvc_frame_desc where
  wWidth : Nat
  wHeight : Nat
  dwDefaultFrameInterval : Nat
  deriving DecidableEq, Repr

/-- The fields of `uvc_format_desc_t` that `main` reads.  `frame_descs` is the
head pointer of the linked list of frame descriptors: a pointer to a node is
the list that starts at this node, and NULL is the empty list. -/
structure uvc_format_desc where
  bDescriptorSubtype : uvc_vs_desc_subtype
  fourccFormat : String
  frame_descs : List uvc_frame_desc
  deriving DecidableEq, Repr

/-- The fields of `uvc_frame_t` that `main` reads, for a frame the stream
delivers: `data` is the address of the image buffer; `width` and `height` are
`uint32_t` fields that hold the size of the negotiated frame descriptor, whose
`wWidth` and `wHeight` are `uint16_t`, so both are below `2^16`. -/
structure uvc_frame where
  data : Nat
  width : Nat
  height : Nat
  frame_format : uvc_frame_format
  width_lt : width < 2 ^ 16
  height_lt : height < 2 ^ 16
  deriving DecidableEq, Repr

/-- An `SDL_Rect`. -/
structure SDL_Rect where
  x : Int
  y : Int
  w : Int
  h : Int
  deriving DecidableEq, Repr

/-- The member `keysym` of a keyboard event: `main` reads `sym`. -/
structure SDL_Keysym where
  sym : Int
  deriving DecidableEq, Repr

/-- The view `event.key` of the event union. -/
structure SDL_KeyboardEvent where
  keysym : SDL_Keysym
  deriving DecidableEq, Repr

/-- The view `event.window` of the event union. -/
structure SDL_WindowEvent where
  windowID : Nat
  event : Nat
  data1 : Int
  data2 : Int
  deriving DecidableEq, Repr

/-- An `SDL_Event` is a C union: `main` reads it through the views `type`,
`key` and `window`, whatever kind of event was delivered, so the embedding
carries all three readings of the same bytes. -/
structure SDL_Event where
  type : Nat
  key : SDL_KeyboardEvent
  window : SDL_WindowEvent
  deriving DecidableEq, Repr

/-! ## Library calls -/

/-- One call of `main` into a library, with the arguments that `main` computes
and the result the library gave.  A pointer result is recorded as a Boolean:
`true` for a handle, `false` for NULL. -/
inductive Call where
  | SDL_Init
  | SDL_CreateWindow (w h : Int) (result : Bool)
  | SDL_CreateRenderer (window : Bool) (result : Bool)
  | uvc_init (res : Int)
  | uvc_perror (res : Int) (msg : String)
  | puts (s : String)
  | uvc_find_device (res : Int)
  | uvc_open (res : Int)
  | uvc_print_diag
  | uvc_get_format_descs
  | SDL_CreateTexture (pixformat : SDL_PixelFormat) (width height : Int) (result : Bool)
  | printf_first_format (fourccFormat : String) (width height fps : Int)
  | uvc_get_stream_ctrl_format_size (frame_format : uvc_frame_format)
      (width height fps : Int) (res : Int)
  | uvc_print_stream_ctrl
  | uvc_stream_open_ctrl (res : Int)
  | uvc_stream_start (res : Int)
  | uvc_stream_close
  | uvc_set_ae_mode (mode : Nat) (res : Int)
  | SDL_GetWindowID (id : Nat)
  | SDL_PollEvent (event : Option SDL_Event)
  | printf_resize (w h : Int)
  | uvc_stream_get_frame (timeout_us : Nat) (res : Int)
  | printf_unable
  | SDL_UpdateNVTexture (texture : Bool) (rect : Option SDL_Rect)
      (Yplane : Nat) (Ypitch : Int) (UVplane : Nat) (UVpitch : Int)
  | SDL_RenderClear
  | SDL_RenderCopy (srcrect : Option SDL_Rect) (dstrect : SDL_Rect)
  | SDL_RenderPresent
  | uvc_stop_streaming
  | SDL_DestroyTexture (texture : Bool)
  | uvc_close
  | uvc_unref_device
  | uvc_exit
  | SDL_DestroyRenderer (renderer : Bool)
  | SDL_DestroyWindow (window : Bool)
  | SDL_Quit
  deriving DecidableEq, Repr

/-- How a run of a piece of the program ends. -/
inductive Run (α : Type) where
  /-- The piece ran to its end, after the calls of `trace`, with value `val`. -/
  | done (trace : List Call) (val : α)
  /-- After the calls of `trace` the program executed an operation that C
  leaves undefined. -/
  | undefined (trace : List Call)
  /-- After the calls of `trace` the frame loop is still turning: the
  environment delivers nothing more. -/
  | running (trace : List Call)
  deriving DecidableEq, Repr

/-- The calls made in a run. -/
def Run.trace {α : Type} : Run α → List Call
  | .done t _ => t
  | .undefined t => t
  | .running t => t

/-- The run that makes the calls `t` first. -/
def Run.prepend {α : Type} (t : List Call) : Run α → Run α
  | .done t1 v => .done (t ++ t1) v
  | .undefined t1 => .undefined (t ++ t1)
  | .running t1 => .running (t ++ t1)

/-- Sequencing: the code `f` runs after a run that finished. -/
def Run.andThen {α β : Type} (r : Run α) (f : α → Run β) : Run β :=
  match r with
  | .done t v => (f v).prepend t
  | .undefined t => .undefined t
  | .running t => .running t

/-! ## The environment -/

/-- What the libraries deliver in one pass of the frame loop. -/
structure Iter where
  /-- The event `SDL_PollEvent` stores, `none` when it returns 0. -/
  event : Option SDL_Event
  /-- The result of `uvc_stream_get_frame`, when the pass reaches it. -/
  res : Int
  /-- The frame `uvc_stream_get_frame` stores when `res` is not negative. -/
  frame : uvc_frame
  deriving DecidableEq, Repr

/-- The answers of the libraries to the calls of `main`. -/
structure Env where
  /-- `SDL_CreateWindow` returned a window (not NULL). -/
  window : Bool
  /-- `SDL_CreateRenderer` returned a renderer (not NULL). -/
  sdlRenderer : Bool
  uvc_init : Int
  uvc_find_device : Int
  uvc_open : Int
  /-- The list `uvc_get_format_descs` returns (its head pointer). -/
  format_descs : List uvc_format_desc
  /-- `SDL_CreateTexture` returned a texture (not NULL). -/
  sdlTexture : Bool
  uvc_get_stream_ctrl_format_size : Int
  uvc_stream_open_ctrl : Int
  uvc_stream_start : Int
  /-- The result of `uvc_set_ae_mode`, by requested mode. -/
  uvc_set_ae_mode : Nat → Int
  /-- The result of `SDL_GetWindowID`. -/
  windowID : Nat
  /-- The passes of the frame loop, in order. -/
  loop : List Iter

/-! ## The program -/

/-- Reading `p->next` of a linked-list pointer: undefined on NULL. -/
def next {α : Type} : List α → Option (List α)
  | [] => none
  | _ :: rest => some rest

/-- Reading the node `*p` of a linked-list pointer: undefined on NULL. -/
def deref {α : Type} : List α → Option α
  | [] => none
  | a :: _ => some a

/-- The locals `main` computes between `uvc_open` and `SDL_CreateTexture`. -/
structure Selection where
  format_desc : uvc_format_desc
  frame_format : uvc_frame_format
  pixformat : SDL_PixelFormat
  width : Int
  height : Int
  fps : Int
  deriving DecidableEq, Repr

/-- The `switch (format_desc->bDescriptorSubtype)` of lines 69-86: the
requested frame format and the texture pixel format, the latter starting as
`SDL_PIXELFORMAT_IYUV`. -/
def selectFormat : uvc_vs_desc_subtype → uvc_frame_format × SDL_PixelFormat
  | .UVC_VS_FORMAT_MJPEG => (UVC_COLOR_FORMAT_MJPEG, .SDL_PIXELFORMAT_IYUV)
  | .UVC_VS_FORMAT_FRAME_BASED => (.UVC_FRAME_FORMAT_H264, .SDL_PIXELFORMAT_IYUV)
  | .other _ => (.UVC_FRAME_FORMAT_NV12, .SDL_PIXELFORMAT_NV12)

/-- Lines 70-72 and 88-92: width, height and fps start as 640, 480 and 30 and
are overwritten from the frame descriptor when `frame_desc` is not NULL.  The
division is the unsigned division of C, undefined for a zero divisor. -/
def selectSize (frame_desc : List uvc_frame_desc) : Option (Int × Int × Int) :=
  match frame_desc with
  | [] => some (640, 480, 30)
  | fd :: _ =>
    if fd.dwDefaultFrameInterval = 0 then none
    else some ((fd.wWidth : Int), (fd.wHeight : Int),
      ((10000000 / fd.dwDefaultFrameInterval : Nat) : Int))

/-- Lines 66-92: `format_desc = uvc_get_format_descs(devh)->next`,
`frame_desc = format_desc->frame_descs->next`, then the format switch and the
size.  `none` when one of the dereferences or the division is undefined. -/
def select (format_descs : List uvc_format_desc) : Option Selection := do
  let format_desc ← next format_descs
  let fmt ← deref format_desc
  let frame_desc ← next fmt.frame_descs
  let (frame_format, pixformat) := selectFormat fmt.bDescriptorSubtype
  let (width, height, fps) ← selectSize frame_desc
  pure ⟨fmt, frame_format, pixformat, width, height, fps⟩

/-- The state the frame loop carries from pass to pass. -/
structure LoopState where
  sdlRect : SDL_Rect
  done : Bool
  deriving DecidableEq, Repr

/-- The body of `case SDL_WINDOWEVENT:` (lines 170-177), which `case SDL_QUIT:`
falls into. -/
def windowCase (windowID : Nat) (st : LoopState) (event : SDL_Event) :
    List Call × LoopState :=
  if event.window.windowID = windowID ∧ event.window.event = SDL_WINDOWEVENT_RESIZED then
    ([.printf_resize event.window.data1 event.window.data2],
      { st with sdlRect := { st.sdlRect with w := event.window.data1, h := event.window.data2 } })
  else ([], st)

/-- Lines 160-179: poll one event and dispatch on its type. -/
def pollEvent (windowID : Nat) (st : LoopState) : Option SDL_Event → List Call × LoopState
  | none => ([.SDL_PollEvent none], st)
  | some event =>
    if event.type = SDL_KEYDOWN then
      if event.key.keysym.sym = SDLK_ESCAPE then
        ([.SDL_PollEvent (some event)], { st with done := true })
      else ([.SDL_PollEvent (some event)], st)
    else if event.type = SDL_QUIT then
      let r := windowCase windowID { st with done := true } event
      (.SDL_PollEvent (some event) :: r.1, r.2)
    else if event.type = SDL_WINDOWEVENT then
      let r := windowCase windowID st event
      (.SDL_PollEvent (some event) :: r.1, r.2)
    else ([.SDL_PollEvent (some event)], st)

/-- The conversion of a `uint32_t` value to an `int` parameter of 32 bits:
values from `2^31` on become negative. -/
def int_of_uint32 (n : Nat) : Int :=
  if n % 2 ^ 32 < 2 ^ 31 then ((n % 2 ^ 32 : Nat) : Int)
  else ((n % 2 ^ 32 : Nat) : Int) - 2 ^ 32

/-- Lines 196-214: the `switch (frame->frame_format)`.  The product
`frame->height * frame->width` is a product of two `uint32_t`, and the two
pitch parameters of `SDL_UpdateNVTexture` are `int`. -/
def showFrame (sdlTexture : Bool) (sdlRect : SDL_Rect) (frame : uvc_frame) : List Call :=
  match frame.frame_format with
  | .UVC_FRAME_FORMAT_H264 => []
  | UVC_COLOR_FORMAT_MJPEG => []
  | UVC_COLOR_FORMAT_YUYV => []
  | UVC_COLOR_FORMAT_NV12 =>
    [.SDL_UpdateNVTexture sdlTexture none frame.data (int_of_uint32 frame.width)
        (frame.data + (frame.height * frame.width) % 2 ^ 32) (int_of_uint32 frame.width),
      .SDL_RenderClear,
      .SDL_RenderCopy none sdlRect,
      .SDL_RenderPresent]
  | .other _ => []

/-- Lines 181-214: what follows the event dispatch in one pass, when `done` is
not set: fetch a frame and show it. -/
def fetchFrame (sdlTexture : Bool) (st : LoopState) (it : Iter) : List Call :=
  if it.res < 0 then [.uvc_stream_get_frame 0 it.res, .printf_unable]
  else .uvc_stream_get_frame 0 it.res :: showFrame sdlTexture st.sdlRect it.frame

/-- The `while (1)` of lines 159-215, over the passes the environment
delivers.  The loop is left by the `break` of line 181 only. -/
def frameLoop (sdlTexture : Bool) (windowID : Nat) : LoopState → List Iter → Run LoopState
  | _, [] => .running []
  | st, it :: rest =>
    let p := pollEvent windowID st it.event
    if p.2.done then .done p.1 p.2
    else (frameLoop sdlTexture windowID p.2 rest).prepend (p.1 ++ fetchFrame sdlTexture p.2 it)

/-- Lines 131-154: the auto-exposure negotiation. -/
def autoExposure (env : Env) : List Call :=
  let res := env.uvc_set_ae_mode 2
  if res = UVC_SUCCESS then
    [.puts "Enabling auto exposure ...", .uvc_set_ae_mode 2 res,
      .puts " ... enabled auto exposure"]
  else if res = UVC_ERROR_PIPE then
    let res2 := env.uvc_set_ae_mode 8
    if res2 < 0 then
      [.puts "Enabling auto exposure ...", .uvc_set_ae_mode 2 res,
        .puts " ... full AE not supported, trying aperture priority mode",
        .uvc_set_ae_mode 8 res2,
        .uvc_perror res2 " ... uvc_set_ae_mode failed to enable aperture priority mode"]
    else
      [.puts "Enabling auto exposure ...", .uvc_set_ae_mode 2 res,
        .puts " ... full AE not supported, trying aperture priority mode",
        .uvc_set_ae_mode 8 res2,
        .puts " ... enabled aperture priority auto exposure mode"]
  else
    [.puts "Enabling auto exposure ...", .uvc_set_ae_mode 2 res,
      .uvc_perror res " ... uvc_set_ae_mode failed to enable auto exposure mode"]

/-- Lines 125-219: the branch taken once `uvc_stream_start` succeeded. -/
def streaming (env : Env) (sdlRect : SDL_Rect) : Run Unit :=
  ((frameLoop env.sdlTexture env.windowID ⟨sdlRect, false⟩ env.loop).prepend
      (.puts "Streaming..." :: autoExposure env ++ [.SDL_GetWindowID env.windowID])).andThen
    fun _ => .done [.uvc_stop_streaming, .puts "Done streaming."] ()

/-- Lines 113-221: the branch taken once the stream profile was negotiated. -/
def negotiated (env : Env) (sdlRect : SDL_Rect) : Run Unit :=
  if env.uvc_stream_open_ctrl < 0 then
    .done [.uvc_stream_open_ctrl env.uvc_stream_open_ctrl,
      .uvc_perror env.uvc_stream_open_ctrl "uvc_stream_open_ctrl"] ()
  else if env.uvc_stream_start < 0 then
    .done [.uvc_stream_open_ctrl env.uvc_stream_open_ctrl,
      .uvc_stream_start env.uvc_stream_start,
      .uvc_stream_close,
      .uvc_perror env.uvc_stream_start "start_streaming"] ()
  else
    (streaming env sdlRect).prepend
      [.uvc_stream_open_ctrl env.uvc_stream_open_ctrl,
        .uvc_stream_start env.uvc_stream_start]

/-- Lines 60-227: the branch taken once the device was opened. -/
def opened (env : Env) (sdlRect : SDL_Rect) : Run Unit :=
  match select env.format_descs with
  | none => .undefined [.puts "Device opened", .uvc_print_diag, .uvc_get_format_descs]
  | some s =>
    (Run.prepend
      [.puts "Device opened", .uvc_print_diag, .uvc_get_format_descs,
        .SDL_CreateTexture s.pixformat s.width s.height env.sdlTexture,
        .printf_first_format s.format_desc.fourccFormat s.width s.height s.fps,
        .uvc_get_stream_ctrl_format_size s.frame_format s.width s.height s.fps
          env.uvc_get_stream_ctrl_format_size,
        .uvc_print_stream_ctrl]
      (if env.uvc_get_stream_ctrl_format_size < 0 then
        .done [.uvc_perror env.uvc_get_stream_ctrl_format_size "get_mode"] ()
      else negotiated env sdlRect)).andThen
    fun _ => .done [.SDL_DestroyTexture env.sdlTexture, .uvc_close, .puts "Device closed"] ()

/-- Lines 52-231: the branch taken once a device was found. -/
def found (env : Env) (sdlRect : SDL_Rect) : Run Unit :=
  (Run.prepend [.puts "Device found", .uvc_open env.uvc_open]
    (if env.uvc_open < 0 then .done [.uvc_perror env.uvc_open "uvc_open"] ()
    else opened env sdlRect)).andThen
  fun _ => .done [.uvc_unref_device] ()

/-- The width of the window `main` opens. -/
def screen_w : Int := 960

/-- The height of the window `main` opens. -/
def screen_h : Int := 540

/-- The function `main` of `src/example.c`: the calls it makes and its exit
value, for the answers `env` of the libraries. -/
def main (env : Env) : Run Int :=
  let sdlRect : SDL_Rect := ⟨0, 0, screen_w, screen_h⟩
  if env.uvc_init < 0 then
    .done [.SDL_Init, .SDL_CreateWindow screen_w screen_h env.window,
      .SDL_CreateRenderer env.window env.sdlRenderer, .uvc_init env.uvc_init,
      .uvc_perror env.uvc_init "uvc_init"] env.uvc_init
  else
    (Run.prepend
      [.SDL_Init, .SDL_CreateWindow screen_w screen_h env.window,
        .SDL_CreateRenderer env.window env.sdlRenderer, .uvc_init env.uvc_init,
        .puts "UVC initialized", .uvc_find_device env.uvc_find_device]
      (if env.uvc_find_device < 0 then
        .done [.uvc_perror env.uvc_find_device "uvc_find_device"] ()
      else found env sdlRect)).andThen
    fun _ => .done [.uvc_exit, .puts "UVC exited", .SDL_DestroyRenderer env.sdlRenderer,
      .SDL_DestroyWindow env.window, .SDL_Quit] 0

/-! ## Vocabulary of the properties -/

/-- The handles `main` holds. -/
inductive Handle where
  | window
  | renderer
  | texture
  | context
  | device
  | deviceHandle
  | stream
  deriving DecidableEq, Repr

/-- The handle a call hands to `main`: a create call that did not return NULL,
a libuvc call that did not fail. -/
def Call.acquires : Call → Option Handle
  | .SDL_CreateWindow _ _ true => some .window
  | .SDL_CreateRenderer _ true => some .renderer
  | .SDL_CreateTexture _ _ _ true => some .texture
  | .uvc_init res => if res < 0 then none else some .context
  | .uvc_find_device res => if res < 0 then none else some .device
  | .uvc_open res => if res < 0 then none else some .deviceHandle
  | .uvc_stream_open_ctrl res => if res < 0 then none else some .stream
  | _ => none

/-- The handle a call gives back.  Destroying NULL gives nothing back;
`uvc_stop_streaming` closes the streams of the device handle, as
`uvc_stream_close` closes one. -/
def Call.releases : Call → Option Handle
  | .SDL_DestroyWindow true => some .window
  | .SDL_DestroyRenderer true => some .renderer
  | .SDL_DestroyTexture true => some .texture
  | .uvc_exit => some .context
  | .uvc_unref_device => some .device
  | .uvc_close => some .deviceHandle
  | .uvc_stream_close => some .stream
  | .uvc_stop_streaming => some .stream
  | _ => none

/-- The handles acquired along a trace, in order. -/
def acquired (t : List Call) : List Handle := t.filterMap Call.acquires

/-- The handles released along a trace, in order. -/
def released (t : List Call) : List Handle := t.filterMap Call.releases

/-- The handles held after a trace, latest first, when the trace releases
handles in strict last-in first-out order; `none` when a release is not of the
handle acquired last. -/
def held : List Handle → List Call → Option (List Handle)
  | s, [] => some s
  | s, c :: t =>
    match c.acquires, c.releases with
    | some h, _ => held (h :: s) t
    | none, some h =>
      (match s with
      | h1 :: s1 => if h1 = h then held s1 t else none
      | [] => none)
    | none, none => held s t

/-- The event ends the frame loop: a quit request, or the escape key going
down. -/
def isQuit : Option SDL_Event → Bool
  | none => false
  | some event =>
    event.type == SDL_QUIT || (event.type == SDL_KEYDOWN && event.key.keysym.sym == SDLK_ESCAPE)

/-- The environment lets `main` run to its `return`: no undefined operation
is reached, and when the frame loop is entered an event that ends it is
delivered. -/
def Env.completes (env : Env) : Prop :=
  env.uvc_init < 0 ∨ env.uvc_find_device < 0 ∨ env.uvc_open < 0 ∨
    ((select env.format_descs).isSome = true ∧
      (env.uvc_get_stream_ctrl_format_size < 0 ∨ env.uvc_stream_open_ctrl < 0 ∨
        env.uvc_stream_start < 0 ∨ ∃ it ∈ env.loop, isQuit it.event = true))

/-- An environment where `uvc_init` fails with `UVC_ERROR_IO` after SDL
created the window and the renderer. -/
def envInitFails : Env :=
  { window := true, sdlRenderer := true, uvc_init := -1, uvc_find_device := 0, uvc_open := 0,
    format_descs := [], sdlTexture := true, uvc_get_stream_ctrl_format_size := 0,
    uvc_stream_open_ctrl := 0, uvc_stream_start := 0, uvc_set_ae_mode := fun _ => 0,
    windowID := 1, loop := [] }

/-- The calls made inside the frame loop. -/
def Call.inLoop : Call → Bool
  | .SDL_PollEvent _ => true
  | .printf_resize _ _ => true
  | .uvc_stream_get_frame _ _ => true
  | .printf_unable => true
  | .SDL_UpdateNVTexture _ _ _ _ _ _ => true
  | .SDL_RenderClear => true
  | .SDL_RenderCopy _ _ => true
  | .SDL_RenderPresent => true
  | _ => false

/-- The stage of the chain a call belongs to: 0 for `uvc_find_device`, 1 for
`uvc_open`, 2 for `uvc_get_stream_ctrl_format_size`, 3 for
`uvc_stream_open_ctrl`, 4 for `uvc_stream_start`, 5 for the frame loop. -/
def Call.stage : Call → Option Nat
  | .uvc_find_device _ => some 0
  | .uvc_open _ => some 1
  | .uvc_get_stream_ctrl_format_size _ _ _ _ _ => some 2
  | .uvc_stream_open_ctrl _ => some 3
  | .uvc_stream_start _ => some 4
  | c => if c.inLoop then some 5 else none

/-- The result a stage call returned. -/
def Call.result : Call → Option Int
  | .uvc_find_device res => some res
  | .uvc_open res => some res
  | .uvc_get_stream_ctrl_format_size _ _ _ _ res => some res
  | .uvc_stream_open_ctrl res => some res
  | .uvc_stream_start res => some res
  | _ => none

/-- The call is a call of `uvc_perror`. -/
def Call.isPerror : Call → Bool
  | .uvc_perror _ _ => true
  | _ => false

/-- The call is a call of `uvc_set_ae_mode`. -/
def Call.isAeMode : Call → Bool
  | .uvc_set_ae_mode _ _ => true
  | _ => false

/-- The call only writes a message: `puts`, `printf` or `uvc_perror`. -/
def Call.isLog : Call → Bool
  | .puts _ => true
  | .uvc_perror _ _ => true
  | .printf_first_format _ _ _ _ => true
  | .printf_resize _ _ => true
  | .printf_unable => true
  | _ => false

/-- The call is a texture update or a render call of SDL. -/
def Call.isRender : Call → Bool
  | .SDL_UpdateNVTexture _ _ _ _ _ _ => true
  | .SDL_RenderClear => true
  | .SDL_RenderCopy _ _ => true
  | .SDL_RenderPresent => true
  | _ => false

/-- The call is a call into SDL. -/
def Call.isSDL : Call → Bool
  | .SDL_Init => true
  | .SDL_CreateWindow _ _ _ => true
  | .SDL_CreateRenderer _ _ => true
  | .SDL_CreateTexture _ _ _ _ => true
  | .SDL_GetWindowID _ => true
  | .SDL_PollEvent _ => true
  | .SDL_UpdateNVTexture _ _ _ _ _ _ => true
  | .SDL_RenderClear => true
  | .SDL_RenderCopy _ _ => true
  | .SDL_RenderPresent => true
  | .SDL_DestroyTexture _ => true
  | .SDL_DestroyRenderer _ => true
  | .SDL_DestroyWindow _ => true
  | .SDL_Quit => true
  | _ => false

/-- The calls of lines 24-55, up to `uvc_open`. -/
def callsToOpen (env : Env) : List Call :=
  [.SDL_Init, .SDL_CreateWindow screen_w screen_h env.window,
    .SDL_CreateRenderer env.window env.sdlRenderer, .uvc_init env.uvc_init,
    .puts "UVC initialized", .uvc_find_device env.uvc_find_device,
    .puts "Device found", .uvc_open env.uvc_open]

/-- The calls of lines 60-107, from the opened device to the negotiation of
the stream profile, for the selection `s`. -/
def callsToNegotiate (env : Env) (s : Selection) : List Call :=
  [.puts "Device opened", .uvc_print_diag, .uvc_get_format_descs,
    .SDL_CreateTexture s.pixformat s.width s.height env.sdlTexture,
    .printf_first_format s.format_desc.fourccFormat s.width s.height s.fps,
    .uvc_get_stream_ctrl_format_size s.frame_format s.width s.height s.fps
      env.uvc_get_stream_ctrl_format_size,
    .uvc_print_stream_ctrl]

/-- The calls of lines 224-240, after the branches that use the opened
device. -/
def callsToExit (env : Env) : List Call :=
  [.SDL_DestroyTexture env.sdlTexture, .uvc_close, .puts "Device closed",
    .uvc_unref_device, .uvc_exit, .puts "UVC exited",
    .SDL_DestroyRenderer env.sdlRenderer, .SDL_DestroyWindow env.window, .SDL_Quit]

/-- The rectangle `main` starts with. -/
def sdlRect0 : SDL_Rect := ⟨0, 0, screen_w, screen_h⟩

/-- The call is `uvc_stream_get_frame`. -/
def Call.isFetch : Call → Bool
  | .uvc_stream_get_frame _ _ => true
  | _ => false

/-- The call carries the negotiated format and size: `SDL_CreateTexture`, the
"First format" message, `uvc_get_stream_ctrl_format_size`. -/
def Call.usesSelection : Call → Bool
  | .SDL_CreateTexture _ _ _ _ => true
  | .printf_first_format _ _ _ _ => true
  | .uvc_get_stream_ctrl_format_size _ _ _ _ _ => true
  | _ => false

/-- A Motion-JPEG format descriptor with two frame descriptors. -/
def fmtMJPEG : uvc_format_desc :=
  ⟨.UVC_VS_FORMAT_MJPEG, "MJPG", [⟨1920, 1080, 333333⟩, ⟨1280, 720, 333333⟩]⟩

/-- An uncompressed format descriptor (subtype 4) with two frame
descriptors. -/
def fmtNV12 : uvc_format_desc :=
  ⟨.other 4, "NV12", [⟨640, 480, 333333⟩, ⟨320, 240, 666666⟩]⟩

/-- What `main` computes for a device with the formats `fmtMJPEG`, `fmtNV12`. -/
def selNV12 : Selection :=
  ⟨fmtNV12, .UVC_FRAME_FORMAT_NV12, .SDL_PIXELFORMAT_NV12, 320, 240, 15⟩

/-- A quit request. -/
def quitEvent : SDL_Event := ⟨SDL_QUIT, ⟨⟨0⟩⟩, ⟨0, 0, 0, 0⟩⟩

/-- A key press of the letter `a`. -/
def keyEvent : SDL_Event := ⟨SDL_KEYDOWN, ⟨⟨97⟩⟩, ⟨0, 0, 0, 0⟩⟩

/-- An NV12 frame of 320 by 240 pixels at address 4096. -/
def frameNV12 : uvc_frame :=
  ⟨4096, 320, 240, .UVC_FRAME_FORMAT_NV12, by decide, by decide⟩

/-- An environment where every stage succeeds, full auto exposure is refused
with `UVC_ERROR_PIPE`, and the loop sees a frame, a failed fetch after a key
press, and a quit request. -/
def envStreams : Env :=
  { window := true, sdlRenderer := true, uvc_init := 0, uvc_find_device := 0, uvc_open := 0,
    format_descs := [fmtMJPEG, fmtNV12], sdlTexture := true,
    uvc_get_stream_ctrl_format_size := 0, uvc_stream_open_ctrl := 0, uvc_stream_start := 0,
    uvc_set_ae_mode := fun mode => if mode = 2 then UVC_ERROR_PIPE else 0,
    windowID := 1,
    loop := [⟨none, 0, frameNV12⟩, ⟨some keyEvent, -7, frameNV12⟩, ⟨some quitEvent, 0, frameNV12⟩] }

/-- An environment for a device with the single format `fmtNV12`. -/
def envOneFormat : Env := { envStreams with format_descs := [fmtNV12] }

/-- A frame-based format descriptor with two frame descriptors. -/
def fmtH264 : uvc_format_desc :=
  ⟨.UVC_VS_FORMAT_FRAME_BASED, "H264", [⟨1920, 1080, 333333⟩, ⟨1280, 720, 333333⟩]⟩

/-- An environment for a device with the formats `fmtNV12`, `fmtMJPEG`. -/
def envMJPEG : Env := { envStreams with format_descs := [fmtNV12, fmtMJPEG] }

/-- An environment for a device with the formats `fmtNV12`, `fmtH264`. -/
def envH264 : Env := { envStreams with format_descs := [fmtNV12, fmtH264] }

/-- An environment where `uvc_open` fails with `UVC_ERROR_ACCESS`. -/
def envOpenFails : Env := { envStreams with uvc_open := -3 }

/-! ## Runs -/

@[simp] theorem Run.prepend_done {α : Type} (t t1 : List Call) (v : α) :
    (Run.done t1 v).prepend t = .done (t ++ t1) v := rfl

@[simp] theorem Run.prepend_undefined {α : Type} (t t1 : List Call) :
    (Run.undefined t1 : Run α).prepend t = .undefined (t ++ t1) := rfl

@[simp] theorem Run.prepend_running {α : Type} (t t1 : List Call) :
    (Run.running t1 : Run α).prepend t = .running (t ++ t1) := rfl

@[simp] theorem Run.andThen_done {α β : Type} (t : List Call) (v : α) (f : α → Run β) :
    (Run.done t v).andThen f = (f v).prepend t := rfl

@[simp] theorem Run.andThen_undefined {α β : Type} (t : List Call) (f : α → Run β) :
    (Run.undefined t : Run α).andThen f = .undefined t := rfl

@[simp] theorem Run.andThen_running {α β : Type} (t : List Call) (f : α → Run β) :
    (Run.running t : Run α).andThen f = .running t := rfl

theorem Run.prepend_prepend {α : Type} (t1 t2 : List Call) (r : Run α) :
    (r.prepend t2).prepend t1 = r.prepend (t1 ++ t2) := by
  cases r <;> simp

theorem Run.andThen_prepend {α β : Type} (t : List Call) (r : Run α) (f : α → Run β) :
    (r.prepend t).andThen f = (r.andThen f).prepend t := by
  cases r <;> simp [Run.prepend_prepend]

/-! ## The frame loop -/

theorem windowCase_done (windowID : Nat) (st : LoopState) (event : SDL_Event) :
    (windowCase windowID st event).2.done = st.done := by
  unfold windowCase
  split_ifs <;> rfl

theorem pollEvent_done (windowID : Nat) (st : LoopState) (ev : Option SDL_Event) :
    (pollEvent windowID st ev).2.done = (st.done || isQuit ev) := by
  cases ev with
  | none => simp [pollEvent, isQuit]
  | some event =>
    simp only [pollEvent]
    split_ifs with h1 h2 h3 h4
    · simp [isQuit, h1, h2]
    · simp [isQuit, h1, h2, SDL_KEYDOWN, SDL_QUIT]
    · simp [isQuit, h3, windowCase_done]
    · simp [isQuit, h1, h3, windowCase_done]
    · simp [isQuit, h1, h3]

/-- The loop is left when an event that ends it is delivered. -/
theorem frameLoop_done_of_quit (tex : Bool) (windowID : Nat) (loop : List Iter) :
    ∀ st : LoopState, (∃ it ∈ loop, isQuit it.event = true) →
      ∃ t st1, frameLoop tex windowID st loop = .done t st1 := by
  induction loop with
  | nil => intro st h; simp at h
  | cons it rest ih =>
    intro st h
    unfold frameLoop
    by_cases hd : (pollEvent windowID st it.event).2.done = true
    · simp [hd]
    · have hq : isQuit it.event = false := by
        rw [pollEvent_done] at hd
        simp at hd
        exact hd.2
      have h1 : ∃ it1 ∈ rest, isQuit it1.event = true := by
        obtain ⟨x, hx, hxq⟩ := h
        rcases List.mem_cons.mp hx with rfl | hx1
        · rw [hq] at hxq; cases hxq
        · exact ⟨x, hx1, hxq⟩
      obtain ⟨t, st1, e⟩ := ih (pollEvent windowID st it.event).2 h1
      simp [hd, e]

/-- The loop is left only when an event that ends it was delivered. -/
theorem frameLoop_quit_of_done (tex : Bool) (windowID : Nat) (loop : List Iter) :
    ∀ (st : LoopState) (t : List Call) (st1 : LoopState), st.done = false →
      frameLoop tex windowID st loop = .done t st1 → ∃ it ∈ loop, isQuit it.event = true := by
  induction loop with
  | nil => intro st t st1 _ h; simp [frameLoop] at h
  | cons it rest ih =>
    intro st t st1 hst h
    unfold frameLoop at h
    by_cases hd : (pollEvent windowID st it.event).2.done = true
    · rw [pollEvent_done, hst] at hd
      exact ⟨it, List.mem_cons_self _ _, by simpa using hd⟩
    · simp only [hd] at h
      cases e : frameLoop tex windowID (pollEvent windowID st it.event).2 rest with
      | done t2 st2 =>
        obtain ⟨x, hx, hxq⟩ := ih _ t2 st2 (by simpa using hd) e
        exact ⟨x, List.mem_cons_of_mem _ hx, hxq⟩
      | undefined t2 => rw [e] at h; simp at h
      | running t2 => rw [e] at h; simp at h

theorem pollEvent_inLoop (windowID : Nat) (st : LoopState) (ev : Option SDL_Event) :
    ∀ c ∈ (pollEvent windowID st ev).1, c.inLoop = true := by
  cases ev with
  | none => simp [pollEvent, Call.inLoop]
  | some event =>
    simp only [pollEvent, windowCase]
    split_ifs <;> simp [Call.inLoop]

theorem showFrame_inLoop (tex : Bool) (sdlRect : SDL_Rect) (frame : uvc_frame) :
    ∀ c ∈ showFrame tex sdlRect frame, c.inLoop = true := by
  unfold showFrame
  split <;> simp [Call.inLoop]

theorem fetchFrame_inLoop (tex : Bool) (st : LoopState) (it : Iter) :
    ∀ c ∈ fetchFrame tex st it, c.inLoop = true := by
  unfold fetchFrame
  split_ifs
  · simp [Call.inLoop]
  · intro c hc
    rcases List.mem_cons.mp hc with rfl | hc1
    · rfl
    · exact showFrame_inLoop _ _ _ c hc1

theorem Run.trace_prepend {α : Type} (t : List Call) (r : Run α) :
    (r.prepend t).trace = t ++ r.trace := by
  cases r <;> rfl

/-- Every call of the frame loop is one of the loop's calls. -/
theorem frameLoop_inLoop (tex : Bool) (windowID : Nat) (loop : List Iter) :
    ∀ (st : LoopState), ∀ c ∈ (frameLoop tex windowID st loop).trace, c.inLoop = true := by
  induction loop with
  | nil => intro st c hc; simp [frameLoop, Run.trace] at hc
  | cons it rest ih =>
    intro st c hc
    unfold frameLoop at hc
    by_cases hd : (pollEvent windowID st it.event).2.done = true
    · simp only [hd, if_true, Run.trace] at hc
      exact pollEvent_inLoop _ _ _ c hc
    · simp only [hd, Bool.false_eq_true, if_false, Run.trace_prepend] at hc
      rcases List.mem_append.mp hc with h1 | h1
      · rcases List.mem_append.mp h1 with h2 | h2
        · exact pollEvent_inLoop _ _ _ c h2
        · exact fetchFrame_inLoop _ _ _ c h2
      · exact ih _ c h1

/-! ## The paths of `main` -/

theorem main_init_fails (env : Env) (h0 : env.uvc_init < 0) :
    main env = .done [.SDL_Init, .SDL_CreateWindow screen_w screen_h env.window,
      .SDL_CreateRenderer env.window env.sdlRenderer, .uvc_init env.uvc_init,
      .uvc_perror env.uvc_init "uvc_init"] env.uvc_init := by
  simp [main, h0]

theorem main_find_fails (env : Env) (h0 : 0 ≤ env.uvc_init) (h1 : env.uvc_find_device < 0) :
    main env = .done [.SDL_Init, .SDL_CreateWindow screen_w screen_h env.window,
      .SDL_CreateRenderer env.window env.sdlRenderer, .uvc_init env.uvc_init,
      .puts "UVC initialized", .uvc_find_device env.uvc_find_device,
      .uvc_perror env.uvc_find_device "uvc_find_device",
      .uvc_exit, .puts "UVC exited", .SDL_DestroyRenderer env.sdlRenderer,
      .SDL_DestroyWindow env.window, .SDL_Quit] 0 := by
  simp [main, not_lt.mpr h0, h1]

theorem main_open_fails (env : Env) (h0 : 0 ≤ env.uvc_init) (h1 : 0 ≤ env.uvc_find_device)
    (h2 : env.uvc_open < 0) :
    main env = .done (callsToOpen env ++ [.uvc_perror env.uvc_open "uvc_open",
      .uvc_unref_device, .uvc_exit, .puts "UVC exited", .SDL_DestroyRenderer env.sdlRenderer,
      .SDL_DestroyWindow env.window, .SDL_Quit]) 0 := by
  simp [main, found, callsToOpen, not_lt.mpr h0, not_lt.mpr h1, h2]

theorem main_select_undefined (env : Env) (h0 : 0 ≤ env.uvc_init)
    (h1 : 0 ≤ env.uvc_find_device) (h2 : 0 ≤ env.uvc_open)
    (hs : select env.format_descs = none) :
    main env = .undefined (callsToOpen env ++
      [.puts "Device opened", .uvc_print_diag, .uvc_get_format_descs]) := by
  simp [main, found, opened, callsToOpen, not_lt.mpr h0, not_lt.mpr h1, not_lt.mpr h2, hs]

theorem main_negotiation_fails (env : Env) (s : Selection) (h0 : 0 ≤ env.uvc_init)
    (h1 : 0 ≤ env.uvc_find_device) (h2 : 0 ≤ env.uvc_open)
    (hs : select env.format_descs = some s) (h3 : env.uvc_get_stream_ctrl_format_size < 0) :
    main env = .done (callsToOpen env ++ callsToNegotiate env s ++
      .uvc_perror env.uvc_get_stream_ctrl_format_size "get_mode" :: callsToExit env) 0 := by
  simp [main, found, opened, callsToOpen, callsToNegotiate, callsToExit, not_lt.mpr h0,
    not_lt.mpr h1, not_lt.mpr h2, hs, h3]

theorem main_stream_open_fails (env : Env) (s : Selection) (h0 : 0 ≤ env.uvc_init)
    (h1 : 0 ≤ env.uvc_find_device) (h2 : 0 ≤ env.uvc_open)
    (hs : select env.format_descs = some s) (h3 : 0 ≤ env.uvc_get_stream_ctrl_format_size)
    (h4 : env.uvc_stream_open_ctrl < 0) :
    main env = .done (callsToOpen env ++ callsToNegotiate env s ++
      .uvc_stream_open_ctrl env.uvc_stream_open_ctrl ::
      .uvc_perror env.uvc_stream_open_ctrl "uvc_stream_open_ctrl" :: callsToExit env) 0 := by
  simp [main, found, opened, negotiated, callsToOpen, callsToNegotiate, callsToExit,
    not_lt.mpr h0, not_lt.mpr h1, not_lt.mpr h2, hs, not_lt.mpr h3, h4]

theorem main_stream_start_fails (env : Env) (s : Selection) (h0 : 0 ≤ env.uvc_init)
    (h1 : 0 ≤ env.uvc_find_device) (h2 : 0 ≤ env.uvc_open)
    (hs : select env.format_descs = some s) (h3 : 0 ≤ env.uvc_get_stream_ctrl_format_size)
    (h4 : 0 ≤ env.uvc_stream_open_ctrl) (h5 : env.uvc_stream_start < 0) :
    main env = .done (callsToOpen env ++ callsToNegotiate env s ++
      .uvc_stream_open_ctrl env.uvc_stream_open_ctrl ::
      .uvc_stream_start env.uvc_stream_start :: .uvc_stream_close ::
      .uvc_perror env.uvc_stream_start "start_streaming" :: callsToExit env) 0 := by
  simp [main, found, opened, negotiated, callsToOpen, callsToNegotiate, callsToExit,
    not_lt.mpr h0, not_lt.mpr h1, not_lt.mpr h2, hs, not_lt.mpr h3, not_lt.mpr h4, h5]

theorem main_streams (env : Env) (s : Selection) (h0 : 0 ≤ env.uvc_init)
    (h1 : 0 ≤ env.uvc_find_device) (h2 : 0 ≤ env.uvc_open)
    (hs : select env.format_descs = some s) (h3 : 0 ≤ env.uvc_get_stream_ctrl_format_size)
    (h4 : 0 ≤ env.uvc_stream_open_ctrl) (h5 : 0 ≤ env.uvc_stream_start) :
    main env =
      ((frameLoop env.sdlTexture env.windowID ⟨sdlRect0, false⟩ env.loop).prepend
        (callsToOpen env ++ callsToNegotiate env s ++
          .uvc_stream_open_ctrl env.uvc_stream_open_ctrl ::
          .uvc_stream_start env.uvc_stream_start :: .puts "Streaming..." ::
          (autoExposure env ++ [.SDL_GetWindowID env.windowID]))).andThen
        fun _ => .done (.uvc_stop_streaming :: .puts "Done streaming." :: callsToExit env) 0 := by
  simp only [main, found, opened, negotiated, streaming, not_lt.mpr h0, not_lt.mpr h1,
    not_lt.mpr h2, hs, not_lt.mpr h3, not_lt.mpr h4, not_lt.mpr h5, if_false, sdlRect0]
  cases frameLoop env.sdlTexture env.windowID ⟨⟨0, 0, screen_w, screen_h⟩, false⟩ env.loop <;>
    simp [callsToOpen, callsToNegotiate, callsToExit]

/-! ## When `main` returns -/

theorem Run.andThen_const_val {α β : Type} (r : Run α) (l t : List Call) (v c : β)
    (h : (r.andThen fun _ => Run.done l v) = .done t c) : c = v := by
  cases r with
  | done t1 u =>
    simp only [Run.andThen_done, Run.prepend_done] at h
    injection h with _ h2
    exact h2.symm
  | undefined t1 => simp at h
  | running t1 => simp at h

theorem streaming_done (env : Env) (sdlRect : SDL_Rect)
    (h : ∃ it ∈ env.loop, isQuit it.event = true) :
    ∃ t, streaming env sdlRect = .done t () := by
  obtain ⟨t, st1, e⟩ :=
    frameLoop_done_of_quit env.sdlTexture env.windowID env.loop ⟨sdlRect, false⟩ h
  simp [streaming, e]

theorem negotiated_done (env : Env) (sdlRect : SDL_Rect)
    (h : env.uvc_stream_open_ctrl < 0 ∨ env.uvc_stream_start < 0 ∨
      ∃ it ∈ env.loop, isQuit it.event = true) :
    ∃ t, negotiated env sdlRect = .done t () := by
  unfold negotiated
  split_ifs with h1 h2
  · exact ⟨_, rfl⟩
  · exact ⟨_, rfl⟩
  · rcases h with h | h | h
    · exact absurd h h1
    · exact absurd h h2
    · obtain ⟨t, e⟩ := streaming_done env sdlRect h
      simp [e]

theorem opened_done (env : Env) (sdlRect : SDL_Rect)
    (hs : (select env.format_descs).isSome = true)
    (h : env.uvc_get_stream_ctrl_format_size < 0 ∨ env.uvc_stream_open_ctrl < 0 ∨
      env.uvc_stream_start < 0 ∨ ∃ it ∈ env.loop, isQuit it.event = true) :
    ∃ t, opened env sdlRect = .done t () := by
  unfold opened
  cases hsel : select env.format_descs with
  | none => rw [hsel] at hs; cases hs
  | some s =>
    simp only
    split_ifs with h1
    · simp
    · rcases h with h | h
      · exact absurd h h1
      · obtain ⟨t, e⟩ := negotiated_done env sdlRect h
        simp [e]

theorem found_done (env : Env) (sdlRect : SDL_Rect)
    (h : env.uvc_open < 0 ∨ ((select env.format_descs).isSome = true ∧
      (env.uvc_get_stream_ctrl_format_size < 0 ∨ env.uvc_stream_open_ctrl < 0 ∨
        env.uvc_stream_start < 0 ∨ ∃ it ∈ env.loop, isQuit it.event = true))) :
    ∃ t, found env sdlRect = .done t () := by
  unfold found
  split_ifs with h1
  · simp
  · rcases h with h | ⟨hs, h⟩
    · exact absurd h h1
    · obtain ⟨t, e⟩ := opened_done env sdlRect hs h
      simp [e]

/-- C2: when `uvc_init` returns a negative result, `main` prints the
diagnostic and returns that result at once, so that `uvc_init` and
`uvc_perror` are its only libuvc calls; when `uvc_init` does not fail, the
exit value of `main` is 0 whatever fails later: every run that returns
returns 0, and `main` does return as soon as no undefined operation is reached
and the frame loop, when entered, is ended by an event. -/
theorem main_exit_value (env : Env) :
    (env.uvc_init < 0 →
      main env = .done [.SDL_Init, .SDL_CreateWindow screen_w screen_h env.window,
        .SDL_CreateRenderer env.window env.sdlRenderer, .uvc_init env.uvc_init,
        .uvc_perror env.uvc_init "uvc_init"] env.uvc_init) ∧
    (0 ≤ env.uvc_init →
      (∀ t c, main env = .done t c → c = 0) ∧
      (env.completes → ∃ t, main env = .done t 0)) := by
  refine ⟨fun h => by simp [main, h], fun h => ⟨fun t c hm => ?_, fun hc => ?_⟩⟩
  · have h0 : ¬ env.uvc_init < 0 := not_lt.mpr h
    simp only [main, h0, if_false] at hm
    exact Run.andThen_const_val _ _ _ _ _ hm
  · have h0 : ¬ env.uvc_init < 0 := not_lt.mpr h
    simp only [main, h0, if_false]
    rcases hc with hc | hc
    · exact absurd hc h0
    · split_ifs with h1
      · simp
      · rcases hc with hc | hc
        · exact absurd hc h1
        · obtain ⟨t, e⟩ := found_done env ⟨0, 0, screen_w, screen_h⟩ hc
          simp [e]

/-- C2, at an environment where `uvc_init` fails with -1, and at one where it
succeeds and no device is found. -/
theorem main_exit_value_witness :
    main envInitFails = .done [.SDL_Init, .SDL_CreateWindow 960 540 true,
        .SDL_CreateRenderer true true, .uvc_init (-1), .uvc_perror (-1) "uvc_init"] (-1) ∧
    ∃ t, main { envInitFails with uvc_init := 0, uvc_find_device := -4 } = .done t 0 :=
  ⟨(main_exit_value envInitFails).1 (by decide),
    ((main_exit_value { envInitFails with uvc_init := 0, uvc_find_device := -4 }).2
      (by decide)).2 (Or.inr (Or.inl (by decide)))⟩

/-! ## Handles -/

theorem held_append (t1 t2 : List Call) :
    ∀ s : List Handle, held s (t1 ++ t2) = (held s t1).bind fun s1 => held s1 t2 := by
  induction t1 with
  | nil => intro s; simp [held]
  | cons c t ih =>
    intro s
    simp only [List.cons_append, held]
    split
    · exact ih _
    · split
      · split_ifs
        · exact ih _
        · rfl
      · rfl
    · exact ih _

theorem inLoop_acquires (c : Call) (h : c.inLoop = true) : c.acquires = none := by
  cases c <;> simp [Call.inLoop] at h <;> rfl

theorem inLoop_releases (c : Call) (h : c.inLoop = true) : c.releases = none := by
  cases c <;> simp [Call.inLoop] at h <;> rfl

theorem held_inLoop (t : List Call) (h : ∀ c ∈ t, c.inLoop = true) :
    ∀ s : List Handle, held s t = some s := by
  induction t with
  | nil => intro s; rfl
  | cons c t ih =>
    intro s
    have hc := h c (List.mem_cons_self _ _)
    simp only [held, inLoop_acquires c hc, inLoop_releases c hc]
    exact ih (fun x hx => h x (List.mem_cons_of_mem _ hx)) s

theorem acquired_inLoop (t : List Call) (h : ∀ c ∈ t, c.inLoop = true) : acquired t = [] := by
  unfold acquired
  rw [List.filterMap_eq_nil_iff]
  exact fun c hc => inLoop_acquires c (h c hc)

theorem released_inLoop (t : List Call) (h : ∀ c ∈ t, c.inLoop = true) : released t = [] := by
  unfold released
  rw [List.filterMap_eq_nil_iff]
  exact fun c hc => inLoop_releases c (h c hc)

theorem acquired_append (t1 t2 : List Call) :
    acquired (t1 ++ t2) = acquired t1 ++ acquired t2 := by
  simp [acquired]

theorem released_append (t1 t2 : List Call) :
    released (t1 ++ t2) = released t1 ++ released t2 := by
  simp [released]

/-- On every path of `main` that returns after `uvc_init` succeeded, the
handles are released in strict last-in first-out order, none is left, and the
releases are the acquisitions in reverse. -/
theorem main_releases_in_reverse (env : Env) (h0 : 0 ≤ env.uvc_init) (t : List Call) (c : Int)
    (h : main env = .done t c) :
    held [] t = some [] ∧ released t = (acquired t).reverse := by
  have n0 := not_lt.mpr h0
  by_cases h1 : env.uvc_find_device < 0
  · rw [main_find_fails env h0 h1] at h
    injection h with ht _
    subst ht
    rcases hw : env.window with _ | _ <;> rcases hr : env.sdlRenderer with _ | _ <;>
      simp [held, acquired, released, Call.acquires, Call.releases, n0, h1, hw, hr]
  have n1 := h1
  rw [not_lt] at h1
  by_cases h2 : env.uvc_open < 0
  · rw [main_open_fails env h0 h1 h2] at h
    injection h with ht _
    subst ht
    rcases hw : env.window with _ | _ <;> rcases hr : env.sdlRenderer with _ | _ <;>
      simp [callsToOpen, held, acquired, released, Call.acquires, Call.releases, n0, n1, h2, hw,
        hr]
  have n2 := h2
  rw [not_lt] at h2
  cases hs : select env.format_descs with
  | none =>
    rw [main_select_undefined env h0 h1 h2 hs] at h
    cases h
  | some s =>
    by_cases h3 : env.uvc_get_stream_ctrl_format_size < 0
    · rw [main_negotiation_fails env s h0 h1 h2 hs h3] at h
      injection h with ht _
      subst ht
      rcases hw : env.window with _ | _ <;> rcases hr : env.sdlRenderer with _ | _ <;>
        rcases hx : env.sdlTexture with _ | _ <;>
        simp [callsToOpen, callsToNegotiate, callsToExit, held, acquired, released,
          Call.acquires, Call.releases, n0, n1, n2, hw, hr, hx]
    have n3 := h3
    rw [not_lt] at h3
    by_cases h4 : env.uvc_stream_open_ctrl < 0
    · rw [main_stream_open_fails env s h0 h1 h2 hs h3 h4] at h
      injection h with ht _
      subst ht
      rcases hw : env.window with _ | _ <;> rcases hr : env.sdlRenderer with _ | _ <;>
        rcases hx : env.sdlTexture with _ | _ <;>
        simp [callsToOpen, callsToNegotiate, callsToExit, held, acquired, released,
          Call.acquires, Call.releases, n0, n1, n2, h4, hw, hr, hx]
    have n4 := h4
    rw [not_lt] at h4
    by_cases h5 : env.uvc_stream_start < 0
    · rw [main_stream_start_fails env s h0 h1 h2 hs h3 h4 h5] at h
      injection h with ht _
      subst ht
      rcases hw : env.window with _ | _ <;> rcases hr : env.sdlRenderer with _ | _ <;>
        rcases hx : env.sdlTexture with _ | _ <;>
        simp [callsToOpen, callsToNegotiate, callsToExit, held, acquired, released,
          Call.acquires, Call.releases, n0, n1, n2, n4, hw, hr, hx]
    rw [not_lt] at h5
    rw [main_streams env s h0 h1 h2 hs h3 h4 h5] at h
    have hl := frameLoop_inLoop env.sdlTexture env.windowID env.loop ⟨sdlRect0, false⟩
    cases hf : frameLoop env.sdlTexture env.windowID ⟨sdlRect0, false⟩ env.loop with
    | undefined tl => rw [hf] at h; simp at h
    | running tl => rw [hf] at h; simp at h
    | done tl st1 =>
      rw [hf] at h hl
      simp only [Run.trace] at hl
      simp only [Run.prepend_done, Run.andThen_done] at h
      injection h with ht _
      subst ht
      have ha : ∀ x ∈ autoExposure env, x.acquires = none ∧ x.releases = none := by
        unfold autoExposure
        simp only
        split_ifs <;> simp [Call.acquires, Call.releases]
      have ha1 : acquired (autoExposure env) = [] := by
        unfold acquired
        rw [List.filterMap_eq_nil_iff]
        exact fun x hx => (ha x hx).1
      have ha2 : released (autoExposure env) = [] := by
        unfold released
        rw [List.filterMap_eq_nil_iff]
        exact fun x hx => (ha x hx).2
      have ha3 : ∀ s : List Handle, held s (autoExposure env) = some s := by
        intro s
        unfold autoExposure
        simp only
        split_ifs <;> simp [held, Call.acquires, Call.releases]
      constructor
      · simp only [List.append_assoc, List.cons_append, held_append, ha3, held_inLoop tl hl,
          callsToOpen, callsToNegotiate, callsToExit, List.nil_append]
        rcases hw : env.window with _ | _ <;> rcases hr : env.sdlRenderer with _ | _ <;>
          rcases hx : env.sdlTexture with _ | _ <;>
          simp [held, held_append, ha3, held_inLoop tl hl, Call.acquires, Call.releases, n0, n1,
            n2, n4, hw, hr, hx]
      · rcases hw : env.window with _ | _ <;> rcases hr : env.sdlRenderer with _ | _ <;>
          rcases hx : env.sdlTexture with _ | _ <;>
          simp [show List.filterMap Call.acquires (autoExposure env) = [] from ha1,
            show List.filterMap Call.releases (autoExposure env) = [] from ha2,
            show List.filterMap Call.acquires tl = [] from acquired_inLoop tl hl,
            show List.filterMap Call.releases tl = [] from released_inLoop tl hl,
            callsToOpen, callsToNegotiate, callsToExit, acquired,
            released, Call.acquires, Call.releases, n0, n1, n2, n4, hw, hr, hx]

/-- C1 (the code breaks it): when `uvc_init` fails with -1 after SDL created
the window and the renderer, `main` returns -1 right after `uvc_perror`: the
window and the renderer were acquired, no handle was released, and both are
still held when `main` returns. -/
theorem main_init_failure_leaks :
    main envInitFails = .done [.SDL_Init, .SDL_CreateWindow 960 540 true,
        .SDL_CreateRenderer true true, .uvc_init (-1), .uvc_perror (-1) "uvc_init"] (-1) ∧
    acquired (main envInitFails).trace = [.window, .renderer] ∧
    released (main envInitFails).trace = [] ∧
    held [] (main envInitFails).trace = some [.renderer, .window] := by
  have h : main envInitFails = .done [.SDL_Init, .SDL_CreateWindow 960 540 true,
      .SDL_CreateRenderer true true, .uvc_init (-1), .uvc_perror (-1) "uvc_init"] (-1) :=
    main_init_fails envInitFails (by decide)
  rw [h]
  exact ⟨rfl, rfl, rfl, rfl⟩

/-! ## The chain of stages -/

theorem stage_le_five (c : Call) (i : Nat) (h : c.stage = some i) : i ≤ 5 := by
  cases c <;> simp [Call.stage, Call.inLoop] at h <;> omega

theorem inLoop_result (c : Call) (h : c.inLoop = true) : c.result = none := by
  cases c <;> simp [Call.inLoop] at h <;> rfl

theorem inLoop_isPerror (c : Call) (h : c.inLoop = true) : c.isPerror = false := by
  cases c <;> simp [Call.inLoop] at h <;> rfl

theorem filter_isPerror_inLoop (t : List Call) (h : ∀ c ∈ t, c.inLoop = true) :
    t.filter Call.isPerror = [] := by
  rw [List.filter_eq_nil_iff]
  intro c hc
  simp [inLoop_isPerror c (h c hc)]

/-- The shape of a narrowing run: stages up to `k` only, the stages before `k`
succeeded, and a failed stage is stage `k` with result `rk`, reported once,
with `main` returning through `uvc_exit`. -/
theorem narrow_of (r : Run Int) (k : Nat) (rk : Int)
    (hA : ∀ c ∈ r.trace, ∀ i, c.stage = some i → i ≤ k)
    (hB : ∀ j, j < k → ∃ c2 ∈ r.trace, c2.stage = some j ∧ ∃ r2, c2.result = some r2 ∧ 0 ≤ r2)
    (hC : ∀ c ∈ r.trace, ∀ i x, c.stage = some i → c.result = some x → x < 0 →
      i = k ∧ x = rk)
    (hD : rk < 0 → (∃ msg, r.trace.filter Call.isPerror = [.uvc_perror rk msg]) ∧
        ∃ t, r = .done t 0 ∧ Call.uvc_exit ∈ t) :
    ∀ c ∈ r.trace, ∀ i, c.stage = some i →
      (∀ j, j < i →
        ∃ c2 ∈ r.trace, c2.stage = some j ∧ ∃ r2, c2.result = some r2 ∧ 0 ≤ r2) ∧
      (∀ c2 ∈ r.trace, ∀ j r2, c2.stage = some j → j < i → c2.result = some r2 → 0 ≤ r2) ∧
      (∀ x, c.result = some x → x < 0 →
        (∃ msg, r.trace.filter Call.isPerror = [.uvc_perror x msg]) ∧
        (∀ c2 ∈ r.trace, ∀ j, c2.stage = some j → j ≤ i) ∧
        ∃ t, r = .done t 0 ∧ Call.uvc_exit ∈ t) := by
  intro c hc i hi
  have hik := hA c hc i hi
  refine ⟨fun j hj => hB j (lt_of_lt_of_le hj hik), fun c2 hc2 j r2 hj hji hr2 => ?_,
    fun x hx hneg => ?_⟩
  · by_contra hcon
    have := (hC c2 hc2 j r2 hj hr2 (not_le.mp hcon)).1
    omega
  · obtain ⟨hk, hxk⟩ := hC c hc i x hi hx hneg
    subst hxk
    obtain ⟨hp, hd⟩ := hD hneg
    exact ⟨hp, fun c2 hc2 j hj => hk ▸ hA c2 hc2 j hj, hd⟩

theorem autoExposure_result (env : Env) : ∀ y ∈ autoExposure env, y.result = none := by
  unfold autoExposure
  simp only
  split_ifs <;> simp [Call.result]

/-- C3: in every run, a call of a stage (`uvc_find_device`, `uvc_open`,
`uvc_get_stream_ctrl_format_size`, `uvc_stream_open_ctrl`, `uvc_stream_start`,
the frame loop) is made only when every earlier stage was called and returned
a result that is not negative; and when a stage returns a negative result,
`uvc_perror` is called exactly once, with that result, no later stage is
called, and `main` still reaches `uvc_exit` and returns 0. -/
theorem stages_narrow (env : Env) :
    ∀ c ∈ (main env).trace, ∀ i, c.stage = some i →
      (∀ j, j < i →
        ∃ c2 ∈ (main env).trace, c2.stage = some j ∧ ∃ r2, c2.result = some r2 ∧ 0 ≤ r2) ∧
      (∀ c2 ∈ (main env).trace, ∀ j r2,
        c2.stage = some j → j < i → c2.result = some r2 → 0 ≤ r2) ∧
      (∀ x, c.result = some x → x < 0 →
        (∃ msg, (main env).trace.filter Call.isPerror = [.uvc_perror x msg]) ∧
        (∀ c2 ∈ (main env).trace, ∀ j, c2.stage = some j → j ≤ i) ∧
        ∃ t, main env = .done t 0 ∧ Call.uvc_exit ∈ t) := by
  by_cases h0 : env.uvc_init < 0
  · rw [main_init_fails env h0]
    apply narrow_of _ 0 0
    · simp [Run.trace, Call.stage, Call.inLoop]
    · intro j hj; omega
    · simp [Run.trace, Call.stage, Call.inLoop]
    · intro h; omega
  rw [not_lt] at h0
  by_cases h1 : env.uvc_find_device < 0
  · rw [main_find_fails env h0 h1]
    apply narrow_of _ 0 env.uvc_find_device
    · simp [Run.trace, Call.stage, Call.inLoop]
    · intro j hj; omega
    · simp [Run.trace, Call.stage, Call.inLoop, Call.result]
    · intro _
      exact ⟨⟨_, rfl⟩, _, rfl, by simp⟩
  rw [not_lt] at h1
  by_cases h2 : env.uvc_open < 0
  · rw [main_open_fails env h0 h1 h2]
    apply narrow_of _ 1 env.uvc_open
    · simp [callsToOpen, Run.trace, Call.stage, Call.inLoop]
    · intro j hj
      interval_cases j
      exact ⟨.uvc_find_device env.uvc_find_device,
        by simp [callsToOpen, Run.trace], rfl, _, rfl, h1⟩
    · simp [callsToOpen, Run.trace, Call.stage, Call.inLoop, Call.result, not_lt.mpr h1, h1]
    · intro _
      exact ⟨⟨_, rfl⟩, _, rfl, by simp⟩
  rw [not_lt] at h2
  have hA2 : ∀ c ∈ callsToOpen env, ∀ i, c.stage = some i → i ≤ 2 := by
    simp [callsToOpen, Call.stage, Call.inLoop]
  have hC2 : ∀ (k : Nat) (rk : Int), ∀ c ∈ callsToOpen env, ∀ i x, c.stage = some i →
      c.result = some x → x < 0 → i = k ∧ x = rk := by
    intro k rk
    simp [callsToOpen, Call.stage, Call.inLoop, Call.result, not_lt.mpr h1, not_lt.mpr h2, h1,
      h2]
  have hB2 : ∀ (t : List Call) (j : Nat), j < 2 → ∃ c2 ∈ callsToOpen env ++ t,
      c2.stage = some j ∧ ∃ r2, c2.result = some r2 ∧ 0 ≤ r2 := by
    intro t j hj
    interval_cases j
    · exact ⟨.uvc_find_device env.uvc_find_device, by simp [callsToOpen], rfl, _, rfl, h1⟩
    · exact ⟨.uvc_open env.uvc_open, by simp [callsToOpen], rfl, _, rfl, h2⟩
  cases hs : select env.format_descs with
  | none =>
    rw [main_select_undefined env h0 h1 h2 hs]
    apply narrow_of _ 2 0
    · simp only [Run.trace, List.forall_mem_append]
      exact ⟨hA2, by simp [Call.stage, Call.inLoop]⟩
    · exact hB2 _
    · simp only [Run.trace, List.forall_mem_append]
      exact ⟨hC2 2 0, by simp [Call.stage, Call.inLoop]⟩
    · intro h; omega
  | some s =>
    have hAn : ∀ c ∈ callsToNegotiate env s, ∀ i, c.stage = some i → i ≤ 2 := by
      simp [callsToNegotiate, Call.stage, Call.inLoop]
    have hAx : ∀ (k : Nat), ∀ c ∈ callsToExit env, ∀ i, c.stage = some i → i ≤ k := by
      simp [callsToExit, Call.stage, Call.inLoop]
    have hCx : ∀ (k : Nat) (rk : Int), ∀ c ∈ callsToExit env, ∀ i x, c.stage = some i →
        c.result = some x → x < 0 → i = k ∧ x = rk := by
      simp [callsToExit, Call.stage, Call.inLoop]
    by_cases h3 : env.uvc_get_stream_ctrl_format_size < 0
    · rw [main_negotiation_fails env s h0 h1 h2 hs h3]
      apply narrow_of _ 2 env.uvc_get_stream_ctrl_format_size
      · simp only [Run.trace, List.forall_mem_append, List.forall_mem_cons]
        exact ⟨⟨hA2, hAn⟩, by simp [Call.stage, Call.inLoop], hAx 2⟩
      · simp only [Run.trace, List.append_assoc]
        exact hB2 _
      · simp only [Run.trace, List.forall_mem_append, List.forall_mem_cons]
        exact ⟨⟨hC2 _ _, by simp [callsToNegotiate, Call.stage, Call.inLoop, Call.result]⟩,
          by simp [Call.stage, Call.inLoop], hCx _ _⟩
      · intro _
        exact ⟨⟨_, rfl⟩, _, rfl, by simp [callsToExit]⟩
    rw [not_lt] at h3
    have hCn : ∀ (k : Nat) (rk : Int), ∀ c ∈ callsToNegotiate env s, ∀ i x, c.stage = some i →
        c.result = some x → x < 0 → i = k ∧ x = rk := by
      intro k rk
      simp [callsToNegotiate, Call.stage, Call.inLoop, Call.result, not_lt.mpr h3, h3]
    have hB3 : ∀ (t : List Call) (j : Nat), j < 3 →
        ∃ c2 ∈ callsToOpen env ++ (callsToNegotiate env s ++ t),
          c2.stage = some j ∧ ∃ r2, c2.result = some r2 ∧ 0 ≤ r2 := by
      intro t j hj
      by_cases hj2 : j < 2
      · exact hB2 _ j hj2
      · have : j = 2 := by omega
        subst this
        exact ⟨.uvc_get_stream_ctrl_format_size s.frame_format s.width s.height s.fps
          env.uvc_get_stream_ctrl_format_size, by simp [callsToNegotiate], rfl, _, rfl, h3⟩
    by_cases h4 : env.uvc_stream_open_ctrl < 0
    · rw [main_stream_open_fails env s h0 h1 h2 hs h3 h4]
      apply narrow_of _ 3 env.uvc_stream_open_ctrl
      · simp only [Run.trace, List.forall_mem_append, List.forall_mem_cons]
        exact ⟨⟨fun c hc i hi => le_trans (hA2 c hc i hi) (by omega),
          fun c hc i hi => le_trans (hAn c hc i hi) (by omega)⟩,
          by simp [Call.stage, Call.inLoop], by simp [Call.stage, Call.inLoop], hAx 3⟩
      · simp only [Run.trace, List.append_assoc]
        exact hB3 _
      · simp only [Run.trace, List.forall_mem_append, List.forall_mem_cons]
        exact ⟨⟨hC2 _ _, hCn _ _⟩, by simp [Call.stage, Call.inLoop, Call.result],
          by simp [Call.stage, Call.inLoop], hCx _ _⟩
      · intro _
        exact ⟨⟨_, rfl⟩, _, rfl, by simp [callsToExit]⟩
    rw [not_lt] at h4
    have hB4 : ∀ (t : List Call) (j : Nat), j < 4 →
        ∃ c2 ∈ callsToOpen env ++ (callsToNegotiate env s ++
          (.uvc_stream_open_ctrl env.uvc_stream_open_ctrl :: t)),
          c2.stage = some j ∧ ∃ r2, c2.result = some r2 ∧ 0 ≤ r2 := by
      intro t j hj
      by_cases hj3 : j < 3
      · exact hB3 _ j hj3
      · have : j = 3 := by omega
        subst this
        exact ⟨.uvc_stream_open_ctrl env.uvc_stream_open_ctrl, by simp, rfl, _, rfl, h4⟩
    by_cases h5 : env.uvc_stream_start < 0
    · rw [main_stream_start_fails env s h0 h1 h2 hs h3 h4 h5]
      apply narrow_of _ 4 env.uvc_stream_start
      · simp only [Run.trace, List.forall_mem_append, List.forall_mem_cons]
        exact ⟨⟨fun c hc i hi => le_trans (hA2 c hc i hi) (by omega),
          fun c hc i hi => le_trans (hAn c hc i hi) (by omega)⟩,
          by simp [Call.stage, Call.inLoop], by simp [Call.stage, Call.inLoop],
          by simp [Call.stage, Call.inLoop], by simp [Call.stage, Call.inLoop], hAx 4⟩
      · simp only [Run.trace, List.append_assoc]
        exact hB4 _
      · simp only [Run.trace, List.forall_mem_append, List.forall_mem_cons]
        exact ⟨⟨hC2 _ _, hCn _ _⟩,
          by simp [Call.stage, Call.inLoop, Call.result, not_lt.mpr h4, h4],
          by simp [Call.stage, Call.inLoop, Call.result],
          by simp [Call.stage, Call.inLoop], by simp [Call.stage, Call.inLoop], hCx _ _⟩
      · intro _
        exact ⟨⟨_, rfl⟩, _, rfl, by simp [callsToExit]⟩
    rw [not_lt] at h5
    have hl := frameLoop_inLoop env.sdlTexture env.windowID env.loop ⟨sdlRect0, false⟩
    have ht : ∃ t, (main env).trace = callsToOpen env ++ (callsToNegotiate env s ++
        (.uvc_stream_open_ctrl env.uvc_stream_open_ctrl ::
          .uvc_stream_start env.uvc_stream_start :: .puts "Streaming..." ::
          (autoExposure env ++ .SDL_GetWindowID env.windowID ::
            ((frameLoop env.sdlTexture env.windowID ⟨sdlRect0, false⟩ env.loop).trace ++ t)))) ∧
        ∀ c ∈ t, c.result = none := by
      rw [main_streams env s h0 h1 h2 hs h3 h4 h5]
      cases frameLoop env.sdlTexture env.windowID ⟨sdlRect0, false⟩ env.loop with
      | done tl st1 =>
        exact ⟨.uvc_stop_streaming :: .puts "Done streaming." :: callsToExit env,
          by simp [Run.trace], by simp [callsToExit, Call.result]⟩
      | undefined tl => exact ⟨[], by simp [Run.trace], by simp⟩
      | running tl => exact ⟨[], by simp [Run.trace], by simp⟩
    obtain ⟨t, ht, htr⟩ := ht
    apply narrow_of _ 5 0
    · exact fun c _ i hi => stage_le_five c i hi
    · rw [ht]
      intro j hj
      by_cases hj4 : j < 4
      · exact hB4 _ j hj4
      · have : j = 4 := by omega
        subst this
        exact ⟨.uvc_stream_start env.uvc_stream_start, by simp, rfl, _, rfl, h5⟩
    · rw [ht]
      simp only [List.forall_mem_append, List.forall_mem_cons]
      refine ⟨hC2 _ _, hCn _ _, by simp [Call.stage, Call.inLoop, Call.result, not_lt.mpr h4, h4],
        by simp [Call.stage, Call.inLoop, Call.result, not_lt.mpr h5, h5],
        by simp [Call.stage, Call.inLoop, Call.result], ?_,
        by simp [Call.stage, Call.inLoop, Call.result], ?_, ?_⟩
      · intro c hc i x _ hx
        rw [autoExposure_result env c hc] at hx
        cases hx
      · intro c hc i x _ hx
        rw [inLoop_result c (hl c hc)] at hx
        cases hx
      · intro c hc i x _ hx
        rw [htr c hc] at hx
        cases hx
    · intro h; omega

/-- C3, at an environment where `uvc_open` fails with -3: `uvc_perror` is
called once, with -3, no stage after `uvc_open` is called, and `main` returns
0 through `uvc_exit`. -/
theorem stages_narrow_witness :
    (∃ msg, (main envOpenFails).trace.filter Call.isPerror = [.uvc_perror (-3) msg]) ∧
    (∀ c2 ∈ (main envOpenFails).trace, ∀ j, c2.stage = some j → j ≤ 1) ∧
    ∃ t, main envOpenFails = .done t 0 ∧ Call.uvc_exit ∈ t :=
  (stages_narrow envOpenFails (.uvc_open (-3)) (by decide) 1 rfl).2.2 (-3) rfl (by decide)

/-! ## Auto exposure -/

theorem filter_inLoop (p : Call → Bool) (hp : ∀ c, c.inLoop = true → p c = false)
    (t : List Call) (h : ∀ c ∈ t, c.inLoop = true) : t.filter p = [] := by
  rw [List.filter_eq_nil_iff]
  intro c hc
  simp [hp c (h c hc)]

theorem inLoop_isAeMode (c : Call) (h : c.inLoop = true) : c.isAeMode = false := by
  cases c <;> simp [Call.inLoop] at h <;> rfl

/-- The trace of a run that reaches the frame loop. -/
theorem main_streams_trace (env : Env) (s : Selection) (h0 : 0 ≤ env.uvc_init)
    (h1 : 0 ≤ env.uvc_find_device) (h2 : 0 ≤ env.uvc_open)
    (hs : select env.format_descs = some s) (h3 : 0 ≤ env.uvc_get_stream_ctrl_format_size)
    (h4 : 0 ≤ env.uvc_stream_open_ctrl) (h5 : 0 ≤ env.uvc_stream_start) :
    ∃ t, (t = [] ∨ t = .uvc_stop_streaming :: .puts "Done streaming." :: callsToExit env) ∧
      (main env).trace = callsToOpen env ++ (callsToNegotiate env s ++
        (.uvc_stream_open_ctrl env.uvc_stream_open_ctrl ::
          .uvc_stream_start env.uvc_stream_start :: .puts "Streaming..." ::
          (autoExposure env ++ .SDL_GetWindowID env.windowID ::
            ((frameLoop env.sdlTexture env.windowID ⟨sdlRect0, false⟩ env.loop).trace ++
              t)))) := by
  rw [main_streams env s h0 h1 h2 hs h3 h4 h5]
  cases frameLoop env.sdlTexture env.windowID ⟨sdlRect0, false⟩ env.loop with
  | done tl st1 =>
    exact ⟨.uvc_stop_streaming :: .puts "Done streaming." :: callsToExit env, Or.inr rfl,
      by simp [Run.trace]⟩
  | undefined tl => exact ⟨[], Or.inl rfl, by simp [Run.trace]⟩
  | running tl => exact ⟨[], Or.inl rfl, by simp [Run.trace]⟩

/-- C4: in a run where `uvc_stream_start` succeeded, the auto-exposure step
follows "Streaming..." and is followed by `SDL_GetWindowID` and the frame
loop, whatever `uvc_set_ae_mode` returns; its calls are log calls and calls of
`uvc_set_ae_mode` only; `uvc_set_ae_mode` is called with mode 2, then with
mode 8 exactly when the first call returned `UVC_ERROR_PIPE`, and nowhere else
in the run. -/
theorem auto_exposure_fallback (env : Env) (s : Selection) (h0 : 0 ≤ env.uvc_init)
    (h1 : 0 ≤ env.uvc_find_device) (h2 : 0 ≤ env.uvc_open)
    (hs : select env.format_descs = some s) (h3 : 0 ≤ env.uvc_get_stream_ctrl_format_size)
    (h4 : 0 ≤ env.uvc_stream_open_ctrl) (h5 : 0 ≤ env.uvc_stream_start) :
    main env =
      ((frameLoop env.sdlTexture env.windowID ⟨sdlRect0, false⟩ env.loop).prepend
        (callsToOpen env ++ callsToNegotiate env s ++
          .uvc_stream_open_ctrl env.uvc_stream_open_ctrl ::
          .uvc_stream_start env.uvc_stream_start :: .puts "Streaming..." ::
          (autoExposure env ++ [.SDL_GetWindowID env.windowID]))).andThen
        (fun _ => .done (.uvc_stop_streaming :: .puts "Done streaming." :: callsToExit env) 0) ∧
    (∀ c ∈ autoExposure env, c.isLog = true ∨ c.isAeMode = true) ∧
    (autoExposure env).filter Call.isAeMode =
      (if env.uvc_set_ae_mode 2 = UVC_ERROR_PIPE then
        [.uvc_set_ae_mode 2 (env.uvc_set_ae_mode 2), .uvc_set_ae_mode 8 (env.uvc_set_ae_mode 8)]
      else [.uvc_set_ae_mode 2 (env.uvc_set_ae_mode 2)]) ∧
    (main env).trace.filter Call.isAeMode = (autoExposure env).filter Call.isAeMode := by
  refine ⟨main_streams env s h0 h1 h2 hs h3 h4 h5, ?_, ?_, ?_⟩
  · unfold autoExposure
    simp only
    split_ifs <;> simp [Call.isLog, Call.isAeMode]
  · unfold autoExposure
    simp only
    split_ifs with a b c
    · rw [a] at b
      simp [UVC_SUCCESS, UVC_ERROR_PIPE] at b
    · simp [Call.isAeMode]
    · simp [Call.isAeMode]
    · simp [Call.isAeMode]
    · simp [Call.isAeMode]
  · obtain ⟨t, ht, htr⟩ := main_streams_trace env s h0 h1 h2 hs h3 h4 h5
    have hl := filter_inLoop Call.isAeMode inLoop_isAeMode _
      (frameLoop_inLoop env.sdlTexture env.windowID env.loop ⟨sdlRect0, false⟩)
    have ht0 : t.filter Call.isAeMode = [] := by
      rcases ht with rfl | rfl
      · rfl
      · simp [callsToExit, Call.isAeMode]
    rw [htr]
    simp only [List.filter_append, List.filter_cons, hl, ht0]
    simp [callsToOpen, callsToNegotiate, Call.isAeMode]

/-- C4, at an environment where mode 2 is refused with `UVC_ERROR_PIPE`: mode
8 is tried, and these are the two calls of `uvc_set_ae_mode` of the run. -/
theorem auto_exposure_fallback_witness :
    (main envStreams).trace.filter Call.isAeMode =
      [.uvc_set_ae_mode 2 UVC_ERROR_PIPE, .uvc_set_ae_mode 8 0] :=
  (auto_exposure_fallback envStreams selNV12 (by decide) (by decide) (by decide) (by rfl)
    (by decide) (by decide) (by decide)).2.2.2.trans (by rfl)

/-! ## Leaving the frame loop -/

theorem pollEvent_quiet (windowID : Nat) (st : LoopState) (ev : Option SDL_Event) :
    ∀ c ∈ (pollEvent windowID st ev).1, c.isFetch = false ∧ c.isRender = false := by
  cases ev with
  | none => simp [pollEvent, Call.isFetch, Call.isRender]
  | some event =>
    simp only [pollEvent, windowCase]
    split_ifs <;> simp [Call.isFetch, Call.isRender]

theorem pollEvent_calls (windowID : Nat) (st : LoopState) (ev : Option SDL_Event) :
    ∀ c ∈ (pollEvent windowID st ev).1,
      c = .SDL_PollEvent ev ∨ ∃ w h, c = .printf_resize w h := by
  cases ev with
  | none => simp [pollEvent]
  | some event =>
    simp only [pollEvent, windowCase]
    split_ifs <;> simp

theorem frameLoop_quit_pass (tex : Bool) (windowID : Nat) (st : LoopState) (it : Iter)
    (rest : List Iter) (h : isQuit it.event = true) :
    frameLoop tex windowID st (it :: rest) =
      .done (pollEvent windowID st it.event).1 (pollEvent windowID st it.event).2 := by
  have hd : (pollEvent windowID st it.event).2.done = true := by
    rw [pollEvent_done, h, Bool.or_true]
  simp [frameLoop, hd]

theorem frameLoop_other_pass (tex : Bool) (windowID : Nat) (st : LoopState) (it : Iter)
    (rest : List Iter) (hst : st.done = false) (h : isQuit it.event = false) :
    (pollEvent windowID st it.event).2.done = false ∧
    frameLoop tex windowID st (it :: rest) =
      (frameLoop tex windowID (pollEvent windowID st it.event).2 rest).prepend
        ((pollEvent windowID st it.event).1 ++
          fetchFrame tex (pollEvent windowID st it.event).2 it) := by
  have hd : (pollEvent windowID st it.event).2.done = false := by
    rw [pollEvent_done, h, hst, Bool.or_false]
  exact ⟨hd, by simp [frameLoop, hd]⟩

/-- The loop is left in the first pass whose event ends it: the trace ends
with the calls of that pass's event dispatch. -/
theorem frameLoop_first_quit (tex : Bool) (windowID : Nat) (it : Iter) (post : List Iter)
    (hq : isQuit it.event = true) (pre : List Iter) :
    ∀ st : LoopState, st.done = false → (∀ x ∈ pre, isQuit x.event = false) →
      ∃ tpre st1, frameLoop tex windowID st (pre ++ it :: post) =
        .done (tpre ++ (pollEvent windowID st1 it.event).1)
          (pollEvent windowID st1 it.event).2 := by
  induction pre with
  | nil =>
    intro st _ _
    exact ⟨[], st, by simpa using frameLoop_quit_pass tex windowID st it post hq⟩
  | cons x pre ih =>
    intro st hst hpre
    have hx := hpre x (List.mem_cons_self _ _)
    obtain ⟨hd, e⟩ := frameLoop_other_pass tex windowID st x (pre ++ it :: post) hst hx
    obtain ⟨tpre, st1, e1⟩ := ih _ hd (fun y hy => hpre y (List.mem_cons_of_mem _ hy))
    refine ⟨(pollEvent windowID st x.event).1 ++
      fetchFrame tex (pollEvent windowID st x.event).2 x ++ tpre, st1, ?_⟩
    rw [List.cons_append, e, e1]
    simp

/-- Without an event that ends it the loop is not left. -/
theorem frameLoop_running (tex : Bool) (windowID : Nat) (loop : List Iter) :
    ∀ st : LoopState, st.done = false → (∀ x ∈ loop, isQuit x.event = false) →
      ∃ t, frameLoop tex windowID st loop = .running t := by
  induction loop with
  | nil => intro st _ _; exact ⟨[], rfl⟩
  | cons x rest ih =>
    intro st hst h
    obtain ⟨hd, e⟩ :=
      frameLoop_other_pass tex windowID st x rest hst (h x (List.mem_cons_self _ _))
    obtain ⟨t, e1⟩ := ih _ hd (fun y hy => h y (List.mem_cons_of_mem _ hy))
    rw [e, e1]
    exact ⟨_, rfl⟩

/-- C5: in a run that reaches the frame loop, (1) a pass whose polled event
is `SDL_QUIT`, or `SDL_KEYDOWN` with `SDLK_ESCAPE`, leaves the loop in that
pass, after the calls of the event dispatch alone: `SDL_PollEvent` and, when
`case SDL_QUIT` falls into the window case, the resize message; none of them
fetches a frame or renders; (2) at the first such pass of the run the loop is left and
the next call is `uvc_stop_streaming`; (3) a pass with no such event goes on
to the next pass, whatever the frame fetch returns; (4) with no such event the
loop is never left. -/
theorem loop_exit (env : Env) (s : Selection) (h0 : 0 ≤ env.uvc_init)
    (h1 : 0 ≤ env.uvc_find_device) (h2 : 0 ≤ env.uvc_open)
    (hs : select env.format_descs = some s) (h3 : 0 ≤ env.uvc_get_stream_ctrl_format_size)
    (h4 : 0 ≤ env.uvc_stream_open_ctrl) (h5 : 0 ≤ env.uvc_stream_start) :
    (∀ st it rest, isQuit it.event = true →
      frameLoop env.sdlTexture env.windowID st (it :: rest) =
        .done (pollEvent env.windowID st it.event).1 (pollEvent env.windowID st it.event).2 ∧
      ∀ c ∈ (pollEvent env.windowID st it.event).1,
        (c = .SDL_PollEvent it.event ∨ ∃ w h, c = .printf_resize w h) ∧
          c.isFetch = false ∧ c.isRender = false) ∧
    (∀ pre it post, env.loop = pre ++ it :: post → (∀ x ∈ pre, isQuit x.event = false) →
      isQuit it.event = true →
      ∃ tpre st1, main env = .done (callsToOpen env ++ callsToNegotiate env s ++
          .uvc_stream_open_ctrl env.uvc_stream_open_ctrl ::
          .uvc_stream_start env.uvc_stream_start :: .puts "Streaming..." ::
          (autoExposure env ++ [.SDL_GetWindowID env.windowID]) ++
          (tpre ++ (pollEvent env.windowID st1 it.event).1) ++
          .uvc_stop_streaming :: .puts "Done streaming." :: callsToExit env) 0) ∧
    (∀ st it rest, st.done = false → isQuit it.event = false →
      (pollEvent env.windowID st it.event).2.done = false ∧
      frameLoop env.sdlTexture env.windowID st (it :: rest) =
        (frameLoop env.sdlTexture env.windowID (pollEvent env.windowID st it.event).2
          rest).prepend
          ((pollEvent env.windowID st it.event).1 ++
            fetchFrame env.sdlTexture (pollEvent env.windowID st it.event).2 it)) ∧
    ((∀ x ∈ env.loop, isQuit x.event = false) → ∃ t, main env = .running t) := by
  refine ⟨fun st it rest hq => ⟨frameLoop_quit_pass _ _ st it rest hq,
      fun c hc => ⟨pollEvent_calls _ _ _ c hc, pollEvent_quiet _ _ _ c hc⟩⟩,
    fun pre it post hl hpre hq => ?_,
    fun st it rest hst hq => frameLoop_other_pass _ _ st it rest hst hq, fun hn => ?_⟩
  · obtain ⟨tpre, st1, e⟩ := frameLoop_first_quit env.sdlTexture env.windowID it post hq pre
      ⟨sdlRect0, false⟩ rfl hpre
    refine ⟨tpre, st1, ?_⟩
    rw [main_streams env s h0 h1 h2 hs h3 h4 h5, hl, e]
    simp
  · obtain ⟨t, e⟩ := frameLoop_running env.sdlTexture env.windowID env.loop
      ⟨sdlRect0, false⟩ rfl hn
    rw [main_streams env s h0 h1 h2 hs h3 h4 h5, e]
    exact ⟨_, rfl⟩

/-- C5, at an environment whose third pass polls a quit request: the run ends
with the poll of that event, `uvc_stop_streaming` and the teardown. -/
theorem loop_exit_witness :
    ∃ tpre st1, main envStreams = .done (callsToOpen envStreams ++
      callsToNegotiate envStreams selNV12 ++
      .uvc_stream_open_ctrl 0 :: .uvc_stream_start 0 :: .puts "Streaming..." ::
      (autoExposure envStreams ++ [.SDL_GetWindowID 1]) ++
      (tpre ++ (pollEvent 1 st1 (some quitEvent)).1) ++
      .uvc_stop_streaming :: .puts "Done streaming." :: callsToExit envStreams) 0 :=
  (loop_exit envStreams selNV12 (by decide) (by decide) (by decide) (by rfl)
    (by decide) (by decide) (by decide)).2.1
    [⟨none, 0, frameNV12⟩, ⟨some keyEvent, -7, frameNV12⟩] ⟨some quitEvent, 0, frameNV12⟩ []
    rfl (by decide) (by decide)

/-! ## Showing a frame -/

/-- C6: in a pass that does not leave the loop, the calls after the event
dispatch are `uvc_stream_get_frame`, then: the message alone when the fetch
failed; the texture update, clear, copy and present when it succeeded and the
frame is tagged `UVC_COLOR_FORMAT_NV12`; nothing for any other tag.  Render
calls are made exactly for a fetched NV12 frame, and the loop goes on with
the next pass in every case. -/
theorem frame_dispatch (tex : Bool) (windowID : Nat) (st : LoopState) (it : Iter)
    (rest : List Iter) (hst : st.done = false) (hq : isQuit it.event = false) :
    frameLoop tex windowID st (it :: rest) =
      (frameLoop tex windowID (pollEvent windowID st it.event).2 rest).prepend
        ((pollEvent windowID st it.event).1 ++
          fetchFrame tex (pollEvent windowID st it.event).2 it) ∧
    (∀ c ∈ (pollEvent windowID st it.event).1, c.isRender = false) ∧
    (∀ st1 : LoopState, fetchFrame tex st1 it =
      .uvc_stream_get_frame 0 it.res ::
        (if it.res < 0 then [.printf_unable]
        else if it.frame.frame_format = UVC_COLOR_FORMAT_NV12 then
          [.SDL_UpdateNVTexture tex none it.frame.data (int_of_uint32 it.frame.width)
              (it.frame.data + (it.frame.height * it.frame.width) % 2 ^ 32)
              (int_of_uint32 it.frame.width),
            .SDL_RenderClear, .SDL_RenderCopy none st1.sdlRect, .SDL_RenderPresent]
        else [])) ∧
    (∀ st1 : LoopState, (∃ c ∈ fetchFrame tex st1 it, c.isRender = true ∨ c.isSDL = true) ↔
      (0 ≤ it.res ∧ it.frame.frame_format = UVC_COLOR_FORMAT_NV12)) := by
  have hf : ∀ st1 : LoopState, fetchFrame tex st1 it =
      .uvc_stream_get_frame 0 it.res ::
        (if it.res < 0 then [.printf_unable]
        else if it.frame.frame_format = UVC_COLOR_FORMAT_NV12 then
          [.SDL_UpdateNVTexture tex none it.frame.data (int_of_uint32 it.frame.width)
              (it.frame.data + (it.frame.height * it.frame.width) % 2 ^ 32)
              (int_of_uint32 it.frame.width),
            .SDL_RenderClear, .SDL_RenderCopy none st1.sdlRect, .SDL_RenderPresent]
        else []) := by
    intro st1
    unfold fetchFrame showFrame
    split_ifs with a b
    · rfl
    · rw [b]
    · cases hfmt : it.frame.frame_format <;> simp_all
  refine ⟨(frameLoop_other_pass tex windowID st it rest hst hq).2,
    fun c hc => (pollEvent_quiet _ _ _ c hc).2, hf, fun st1 => ?_⟩
  rw [hf st1]
  split_ifs with a b
  · simp [Call.isRender, Call.isSDL, a]
  · simp [Call.isRender, Call.isSDL, not_lt.mp a, b]
  · simp [Call.isRender, Call.isSDL, b]

/-- C6, at a pass with no event and a fetched NV12 frame. -/
theorem frame_dispatch_witness :
    ∃ c ∈ fetchFrame true ⟨sdlRect0, false⟩ ⟨none, 0, frameNV12⟩,
      c.isRender = true ∨ c.isSDL = true :=
  ((frame_dispatch true 1 ⟨sdlRect0, false⟩ ⟨none, 0, frameNV12⟩ [] rfl rfl).2.2.2
    ⟨sdlRect0, false⟩).mpr ⟨by decide, rfl⟩

/-- A value below `2^16` is unchanged by the conversion to `int`. -/
theorem int_of_uint32_small (n : Nat) (h : n < 2 ^ 16) : int_of_uint32 n = (n : Int) := by
  have h1 : n % 2 ^ 32 = n := Nat.mod_eq_of_lt (by omega)
  unfold int_of_uint32
  rw [h1, if_pos (by omega)]

/-- The 32-bit product of the sizes of a delivered frame does not wrap. -/
theorem frame_product (frame : uvc_frame) :
    (frame.height * frame.width) % 2 ^ 32 = frame.width * frame.height := by
  have h : frame.height * frame.width < 2 ^ 16 * 2 ^ 16 :=
    Nat.mul_lt_mul'' frame.height_lt frame.width_lt
  rw [Nat.mod_eq_of_lt (by omega), Nat.mul_comm]

/-- C7: for every fetched NV12 frame of width `w` and height `h` with data
buffer `d`, the pass calls `SDL_UpdateNVTexture` for the whole texture (no
rectangle) with the Y plane at offset 0 of `d` and pitch `w`, and the UV plane
at offset `w * h` of `d` and pitch `w`, and then, in this order,
`SDL_RenderClear`, `SDL_RenderCopy` of the texture into the current
destination rectangle, and `SDL_RenderPresent`. -/
theorem nv12_update (tex : Bool) (st : LoopState) (it : Iter) (hres : 0 ≤ it.res)
    (hfmt : it.frame.frame_format = UVC_COLOR_FORMAT_NV12) :
    fetchFrame tex st it =
      [.uvc_stream_get_frame 0 it.res,
        .SDL_UpdateNVTexture tex none (it.frame.data + 0) (it.frame.width : Int)
          (it.frame.data + it.frame.width * it.frame.height) (it.frame.width : Int),
        .SDL_RenderClear, .SDL_RenderCopy none st.sdlRect, .SDL_RenderPresent] := by
  unfold fetchFrame showFrame
  rw [if_neg (not_lt.mpr hres), hfmt, frame_product,
    int_of_uint32_small _ it.frame.width_lt]
  rfl

/-- C7, at the frame of 320 by 240 pixels at address 4096: the pitch is 320
and the UV plane is at address 4096 + 76800. -/
theorem nv12_update_witness :
    fetchFrame true ⟨sdlRect0, false⟩ ⟨none, 0, frameNV12⟩ =
      [.uvc_stream_get_frame 0 0, .SDL_UpdateNVTexture true none 4096 320 80896 320,
        .SDL_RenderClear, .SDL_RenderCopy none sdlRect0, .SDL_RenderPresent] :=
  nv12_update true ⟨sdlRect0, false⟩ ⟨none, 0, frameNV12⟩ (by decide) rfl

/-! ## The negotiated format and size -/

theorem inLoop_usesSelection (c : Call) (h : c.inLoop = true) : c.usesSelection = false := by
  cases c <;> simp [Call.inLoop] at h <;> rfl

theorem autoExposure_usesSelection (env : Env) :
    (autoExposure env).filter Call.usesSelection = [] := by
  unfold autoExposure
  simp only
  split_ifs <;> simp [Call.usesSelection]

/-- In a run that opens the device and selects `s`, the texture, the "First
format" message and the negotiation use the format and the size of `s`, and
no other call of the run carries a format or a size. -/
theorem main_usesSelection (env : Env) (s : Selection) (h0 : 0 ≤ env.uvc_init)
    (h1 : 0 ≤ env.uvc_find_device) (h2 : 0 ≤ env.uvc_open)
    (hs : select env.format_descs = some s) :
    (main env).trace.filter Call.usesSelection =
      [.SDL_CreateTexture s.pixformat s.width s.height env.sdlTexture,
        .printf_first_format s.format_desc.fourccFormat s.width s.height s.fps,
        .uvc_get_stream_ctrl_format_size s.frame_format s.width s.height s.fps
          env.uvc_get_stream_ctrl_format_size] := by
  have hx : (callsToExit env).filter Call.usesSelection = [] := by
    simp [callsToExit, Call.usesSelection]
  have ho : (callsToOpen env).filter Call.usesSelection = [] := by
    simp [callsToOpen, Call.usesSelection]
  have hn : (callsToNegotiate env s).filter Call.usesSelection =
      [.SDL_CreateTexture s.pixformat s.width s.height env.sdlTexture,
        .printf_first_format s.format_desc.fourccFormat s.width s.height s.fps,
        .uvc_get_stream_ctrl_format_size s.frame_format s.width s.height s.fps
          env.uvc_get_stream_ctrl_format_size] := by
    simp [callsToNegotiate, Call.usesSelection]
  by_cases h3 : env.uvc_get_stream_ctrl_format_size < 0
  · rw [main_negotiation_fails env s h0 h1 h2 hs h3]
    simp only [Run.trace, List.filter_append, List.filter_cons, ho, hn, hx]
    simp [Call.usesSelection]
  rw [not_lt] at h3
  by_cases h4 : env.uvc_stream_open_ctrl < 0
  · rw [main_stream_open_fails env s h0 h1 h2 hs h3 h4]
    simp only [Run.trace, List.filter_append, List.filter_cons, ho, hn, hx]
    simp [Call.usesSelection]
  rw [not_lt] at h4
  by_cases h5 : env.uvc_stream_start < 0
  · rw [main_stream_start_fails env s h0 h1 h2 hs h3 h4 h5]
    simp only [Run.trace, List.filter_append, List.filter_cons, ho, hn, hx]
    simp [Call.usesSelection]
  rw [not_lt] at h5
  obtain ⟨t, ht, htr⟩ := main_streams_trace env s h0 h1 h2 hs h3 h4 h5
  have hl := filter_inLoop Call.usesSelection inLoop_usesSelection _
    (frameLoop_inLoop env.sdlTexture env.windowID env.loop ⟨sdlRect0, false⟩)
  have ht0 : t.filter Call.usesSelection = [] := by
    rcases ht with rfl | rfl
    · rfl
    · simp [callsToExit, Call.usesSelection]
  rw [htr]
  simp only [List.filter_append, List.filter_cons, ho, hn, hl, ht0,
    autoExposure_usesSelection]
  simp [Call.usesSelection]

/-- The selection for a format list with a second element whose frame list is
not empty. -/
theorem select_cons (f0 fmt : uvc_format_desc) (rest : List uvc_format_desc)
    (g0 : uvc_frame_desc) (frame_desc : List uvc_frame_desc)
    (hf : fmt.frame_descs = g0 :: frame_desc) :
    select (f0 :: fmt :: rest) =
      (selectSize frame_desc).map fun z =>
        ⟨fmt, (selectFormat fmt.bDescriptorSubtype).1, (selectFormat fmt.bDescriptorSubtype).2,
          z.1, z.2.1, z.2.2⟩ := by
  simp only [select, next, deref, hf, Option.pure_def, Option.bind_eq_bind, Option.some_bind]
  cases selectSize frame_desc <;> rfl

/-- C8 (the code breaks it): for a device whose format list is `fmtMJPEG`,
`fmtNV12`, the first element of the list is `fmtMJPEG`, whose first frame
descriptor is 1920 by 1080, but `main` selects `fmtNV12` and its second frame
descriptor: it creates the texture, prints "First format" and negotiates with
NV12, 320 by 240, 15 fps.  For a device whose list holds one format, `main`
reads through a NULL pointer right after `uvc_get_format_descs`. -/
theorem main_selects_second_format :
    deref envStreams.format_descs = some fmtMJPEG ∧
    deref fmtMJPEG.frame_descs = some ⟨1920, 1080, 333333⟩ ∧
    (main envStreams).trace.filter Call.usesSelection =
      [.SDL_CreateTexture .SDL_PIXELFORMAT_NV12 320 240 true,
        .printf_first_format "NV12" 320 240 15,
        .uvc_get_stream_ctrl_format_size .UVC_FRAME_FORMAT_NV12 320 240 15 0] ∧
    main envOneFormat = .undefined (callsToOpen envOneFormat ++
      [.puts "Device opened", .uvc_print_diag, .uvc_get_format_descs]) := by
  refine ⟨rfl, rfl, ?_, ?_⟩
  · exact main_usesSelection envStreams selNV12 (by decide) (by decide) (by decide) (by rfl)
  · exact main_select_undefined envOneFormat (by decide) (by decide) (by decide) (by rfl)

/-- C9: in a run that opens the device, with `frame_desc` the selected frame
descriptor pointer: when it is NULL the texture is created 640 by 480 and the
stream is negotiated for 640 by 480 at 30 fps; when it points to a descriptor
with a nonzero `dwDefaultFrameInterval`, both use its `wWidth` and `wHeight`,
and the fps is the integer quotient `10000000 / dwDefaultFrameInterval`; with
a zero interval the division is undefined and neither call is made. -/
theorem negotiated_size (env : Env) (h0 : 0 ≤ env.uvc_init) (h1 : 0 ≤ env.uvc_find_device)
    (h2 : 0 ≤ env.uvc_open) (f0 fmt : uvc_format_desc) (rest : List uvc_format_desc)
    (g0 : uvc_frame_desc) (frame_desc : List uvc_frame_desc)
    (hl : env.format_descs = f0 :: fmt :: rest) (hf : fmt.frame_descs = g0 :: frame_desc) :
    (frame_desc = [] →
      (main env).trace.filter Call.usesSelection =
        [.SDL_CreateTexture (selectFormat fmt.bDescriptorSubtype).2 640 480 env.sdlTexture,
          .printf_first_format fmt.fourccFormat 640 480 30,
          .uvc_get_stream_ctrl_format_size (selectFormat fmt.bDescriptorSubtype).1 640 480 30
            env.uvc_get_stream_ctrl_format_size]) ∧
    (∀ fd tl, frame_desc = fd :: tl → fd.dwDefaultFrameInterval ≠ 0 →
      (main env).trace.filter Call.usesSelection =
        [.SDL_CreateTexture (selectFormat fmt.bDescriptorSubtype).2 fd.wWidth fd.wHeight
            env.sdlTexture,
          .printf_first_format fmt.fourccFormat fd.wWidth fd.wHeight
            ((10000000 / fd.dwDefaultFrameInterval : Nat) : Int),
          .uvc_get_stream_ctrl_format_size (selectFormat fmt.bDescriptorSubtype).1
            fd.wWidth fd.wHeight ((10000000 / fd.dwDefaultFrameInterval : Nat) : Int)
            env.uvc_get_stream_ctrl_format_size]) ∧
    (∀ fd tl, frame_desc = fd :: tl → fd.dwDefaultFrameInterval = 0 →
      main env = .undefined (callsToOpen env ++
        [.puts "Device opened", .uvc_print_diag, .uvc_get_format_descs]) ∧
      (main env).trace.filter Call.usesSelection = []) := by
  have hsel := select_cons f0 fmt rest g0 frame_desc hf
  rw [← hl] at hsel
  refine ⟨fun hnil => ?_, fun fd tl hcons hne => ?_, fun fd tl hcons hz => ?_⟩
  · subst hnil
    exact main_usesSelection env _ h0 h1 h2 (by rw [hsel]; rfl)
  · subst hcons
    exact main_usesSelection env
      ⟨fmt, (selectFormat fmt.bDescriptorSubtype).1, (selectFormat fmt.bDescriptorSubtype).2,
        fd.wWidth, fd.wHeight, ((10000000 / fd.dwDefaultFrameInterval : Nat) : Int)⟩
      h0 h1 h2 (by rw [hsel]; simp only [selectSize, if_neg hne]; rfl)
  · subst hcons
    have hnone : select env.format_descs = none := by rw [hsel]; simp [selectSize, hz]
    rw [main_select_undefined env h0 h1 h2 hnone]
    exact ⟨rfl, by simp [Run.trace, callsToOpen, Call.usesSelection]⟩

/-- C9, at the device with the formats `fmtMJPEG`, `fmtNV12`: the selected
frame descriptor is 320 by 240 with interval 666666, so the fps is 15. -/
theorem negotiated_size_witness :
    (main envStreams).trace.filter Call.usesSelection =
      [.SDL_CreateTexture (selectFormat (.other 4)).2 320 240 true,
        .printf_first_format "NV12" 320 240 ((10000000 / 666666 : Nat) : Int),
        .uvc_get_stream_ctrl_format_size (selectFormat (.other 4)).1 320 240
          ((10000000 / 666666 : Nat) : Int) 0] :=
  (negotiated_size envStreams (by decide) (by decide) (by decide) fmtMJPEG fmtNV12 []
    ⟨640, 480, 333333⟩ [⟨320, 240, 666666⟩] rfl rfl).2.1 ⟨320, 240, 666666⟩ [] rfl
    (by decide)

/-- The size is defined when the selected frame descriptor pointer is NULL or
points to a descriptor with a nonzero interval. -/
theorem selectSize_isSome (frame_desc : List uvc_frame_desc)
    (hz : ∀ fd tl, frame_desc = fd :: tl → fd.dwDefaultFrameInterval ≠ 0) :
    ∃ z, selectSize frame_desc = some z := by
  cases frame_desc with
  | nil => exact ⟨_, rfl⟩
  | cons fd tl =>
    exact ⟨((fd.wWidth : Int), (fd.wHeight : Int),
      ((10000000 / fd.dwDefaultFrameInterval : Nat) : Int)),
      by simp only [selectSize, if_neg (hz fd tl rfl)]⟩

/-- C10: for a device whose format list is `f0 :: fmt :: rest`, in a run that
opens the device and computes the size without an undefined operation, `main`
makes one `SDL_CreateTexture` call and one `uvc_get_stream_ctrl_format_size`
call, and the frame format requested by the latter and the pixel format of
the texture are, by the `bDescriptorSubtype` of the selected descriptor
`fmt`: MJPEG and IYUV for `UVC_VS_FORMAT_MJPEG`, H264 and IYUV for
`UVC_VS_FORMAT_FRAME_BASED`, NV12 and NV12 for every other subtype; the
texture is NV12 exactly when the requested frame format is NV12, and the frame
switch of the loop makes render calls exactly for frames tagged NV12. -/
theorem format_choice (env : Env) (h0 : 0 ≤ env.uvc_init) (h1 : 0 ≤ env.uvc_find_device)
    (h2 : 0 ≤ env.uvc_open) (f0 fmt : uvc_format_desc) (rest : List uvc_format_desc)
    (g0 : uvc_frame_desc) (frame_desc : List uvc_frame_desc)
    (hl : env.format_descs = f0 :: fmt :: rest) (hf : fmt.frame_descs = g0 :: frame_desc)
    (hz : ∀ fd tl, frame_desc = fd :: tl → fd.dwDefaultFrameInterval ≠ 0) :
    (∃ (pixformat : SDL_PixelFormat) (frame_format : uvc_frame_format) (width height fps : Int),
      (main env).trace.filter Call.usesSelection =
        [.SDL_CreateTexture pixformat width height env.sdlTexture,
          .printf_first_format fmt.fourccFormat width height fps,
          .uvc_get_stream_ctrl_format_size frame_format width height fps
            env.uvc_get_stream_ctrl_format_size] ∧
      (fmt.bDescriptorSubtype = .UVC_VS_FORMAT_MJPEG →
        frame_format = UVC_COLOR_FORMAT_MJPEG ∧ pixformat = .SDL_PIXELFORMAT_IYUV) ∧
      (fmt.bDescriptorSubtype = .UVC_VS_FORMAT_FRAME_BASED →
        frame_format = .UVC_FRAME_FORMAT_H264 ∧ pixformat = .SDL_PIXELFORMAT_IYUV) ∧
      (fmt.bDescriptorSubtype ≠ .UVC_VS_FORMAT_MJPEG →
        fmt.bDescriptorSubtype ≠ .UVC_VS_FORMAT_FRAME_BASED →
        frame_format = .UVC_FRAME_FORMAT_NV12 ∧ pixformat = .SDL_PIXELFORMAT_NV12) ∧
      (pixformat = .SDL_PIXELFORMAT_NV12 ↔ frame_format = .UVC_FRAME_FORMAT_NV12)) ∧
    (∀ (tex : Bool) (sdlRect : SDL_Rect) (frame : uvc_frame),
      (∃ c ∈ showFrame tex sdlRect frame, c.isRender = true) ↔
        frame.frame_format = .UVC_FRAME_FORMAT_NV12) := by
  obtain ⟨z, hzs⟩ := selectSize_isSome frame_desc hz
  have hsel := select_cons f0 fmt rest g0 frame_desc hf
  rw [← hl, hzs] at hsel
  have hfil := main_usesSelection env _ h0 h1 h2 hsel
  refine ⟨⟨(selectFormat fmt.bDescriptorSubtype).2, (selectFormat fmt.bDescriptorSubtype).1,
    z.1, z.2.1, z.2.2, hfil, ?_, ?_, ?_, ?_⟩, ?_⟩
  · intro h
    rw [h]
    exact ⟨rfl, rfl⟩
  · intro h
    rw [h]
    exact ⟨rfl, rfl⟩
  · intro ha hb
    cases hsub : fmt.bDescriptorSubtype with
    | UVC_VS_FORMAT_MJPEG => exact absurd hsub ha
    | UVC_VS_FORMAT_FRAME_BASED => exact absurd hsub hb
    | other n => exact ⟨rfl, rfl⟩
  · cases fmt.bDescriptorSubtype <;> simp [selectFormat]
  · intro tex sdlRect frame
    unfold showFrame
    cases frame.frame_format <;> simp [Call.isRender]

/-- C10, at three devices whose second format descriptor is `fmtMJPEG`,
`fmtH264` and `fmtNV12` (subtype 4): the requested frame format and the
texture pixel format are MJPEG and IYUV, H264 and IYUV, NV12 and NV12. -/
theorem format_choice_witness :
    (∃ (p : SDL_PixelFormat) (ff : uvc_frame_format) (w h fps : Int),
      (main envMJPEG).trace.filter Call.usesSelection =
        [.SDL_CreateTexture p w h true, .printf_first_format "MJPG" w h fps,
          .uvc_get_stream_ctrl_format_size ff w h fps 0] ∧
      ff = UVC_COLOR_FORMAT_MJPEG ∧ p = .SDL_PIXELFORMAT_IYUV) ∧
    (∃ (p : SDL_PixelFormat) (ff : uvc_frame_format) (w h fps : Int),
      (main envH264).trace.filter Call.usesSelection =
        [.SDL_CreateTexture p w h true, .printf_first_format "H264" w h fps,
          .uvc_get_stream_ctrl_format_size ff w h fps 0] ∧
      ff = .UVC_FRAME_FORMAT_H264 ∧ p = .SDL_PIXELFORMAT_IYUV) ∧
    (∃ (p : SDL_PixelFormat) (ff : uvc_frame_format) (w h fps : Int),
      (main envStreams).trace.filter Call.usesSelection =
        [.SDL_CreateTexture p w h true, .printf_first_format "NV12" w h fps,
          .uvc_get_stream_ctrl_format_size ff w h fps 0] ∧
      ff = .UVC_FRAME_FORMAT_NV12 ∧ p = .SDL_PIXELFORMAT_NV12) := by
  refine ⟨?_, ?_, ?_⟩
  · obtain ⟨⟨p, ff, w, h, fps, hfil, hm, _⟩, _⟩ :=
      format_choice envMJPEG (by decide) (by decide) (by decide) fmtNV12 fmtMJPEG []
        ⟨1920, 1080, 333333⟩ [⟨1280, 720, 333333⟩] rfl rfl
        (by intro fd tl e; cases e; decide)
    exact ⟨p, ff, w, h, fps, hfil, hm rfl⟩
  · obtain ⟨⟨p, ff, w, h, fps, hfil, _, hb, _⟩, _⟩ :=
      format_choice envH264 (by decide) (by decide) (by decide) fmtNV12 fmtH264 []
        ⟨1920, 1080, 333333⟩ [⟨1280, 720, 333333⟩] rfl rfl
        (by intro fd tl e; cases e; decide)
    exact ⟨p, ff, w, h, fps, hfil, hb rfl⟩
  · obtain ⟨⟨p, ff, w, h, fps, hfil, _, _, hn, _⟩, _⟩ :=
      format_choice envStreams (by decide) (by decide) (by decide) fmtMJPEG fmtNV12 []
        ⟨640, 480, 333333⟩ [⟨320, 240, 666666⟩] rfl rfl
        (by intro fd tl e; cases e; decide)
    exact ⟨p, ff, w, h, fps, hfil, hn (by decide) (by decide)⟩

end UvcExample
